import Mathlib

/-!
# Shallow embedding of the `gameboy-r` emulator core

This file embeds the parts of the Rust source needed to settle the claims
about the CPU registers, CPU step, timer, MMU WRAM banking, cartridge
validation, APU register file, and PPU renderer / color palettes.

Conventions:
* machine integers (`u8`, `u16`, `u32`, `usize`) are `Nat`, reduced with
  `% 256` / `% 65536` (or masked with `&&&`) exactly where the Rust code
  wraps.  Plain `+`/`-` on Rust unsigned types wraps in the release profile
  the emulator ships with; those spots are modelled with an explicit
  modulus and noted in comments;
* a Rust `panic` / `assert` failure / out-of-bounds index aborts the
  process; fallible operations are therefore embedded with `Option`,
  where `none` is the abort;
* byte arrays that the claims index with varying offsets (`wram`, `vram`,
  `oam`, framebuffer, palette memory) are total functions out of `Nat`
  together with the explicit bounds check the Rust indexing performs;
* field and function names follow the Rust source.
-/

namespace GameboyR

/-! ## CPU registers (src/cpu/registers.rs) -/

/-- The flag register constants of `CpuFlag` (registers.rs lines 40-46). -/
inductive CpuFlag
  | Z
  | N
  | H
  | C
deriving DecidableEq, Repr

/-- `CpuFlag as u8` — the discriminant values of the Rust enum. -/
def CpuFlag.mask : CpuFlag → Nat
  | .Z => 0x80
  | .N => 0x40
  | .H => 0x20
  | .C => 0x10

/-- CPU register file (registers.rs lines 13-29).  All 8-bit fields hold
values `< 256` in reachable states; `pc`/`sp` hold values `< 65536`. -/
structure Registers where
  pc : Nat
  sp : Nat
  a : Nat
  f : Nat
  b : Nat
  c : Nat
  d : Nat
  e : Nat
  h : Nat
  l : Nat
deriving DecidableEq, Repr

/-- `Registers::new` (registers.rs lines 69-82). -/
def Registers.new : Registers :=
  { pc := 0x0100, sp := 0xFFFE, a := 0x01, f := 0xB0,
    b := 0x00, c := 0x13, d := 0x00, e := 0xD8, h := 0x01, l := 0x4D }

/-- `Registers::af` (registers.rs lines 84-87): `((a as u16) << 8) | ((f & 0xF0) as u16)`. -/
def Registers.af (r : Registers) : Nat :=
  (r.a <<< 8) ||| (r.f &&& 0xF0)

/-- `Registers::set_af` (registers.rs lines 89-92):
`a = (value >> 8) as u8; f = (value & 0x00F0) as u8`. -/
def Registers.set_af (r : Registers) (value : Nat) : Registers :=
  { r with a := (value >>> 8) % 256, f := value &&& 0x00F0 }

/-- `Registers::set_flag` (registers.rs lines 121-130); the `!mask`
complement on `u8` is `mask ^^^ 0xFF` for the single-bit masks used. -/
def Registers.set_flag (r : Registers) (flag : CpuFlag) (set : Bool) : Registers :=
  let f := if set then r.f ||| flag.mask else r.f &&& (flag.mask ^^^ 0xFF)
  { r with f := f &&& 0xF0 }

/-- `Registers::has_flag` (registers.rs lines 132-135). -/
def Registers.has_flag (r : Registers) (flag : CpuFlag) : Bool :=
  decide (0 < r.f &&& flag.mask)

/-! ## CPU state and stack / program-counter helpers (src/cpu/mod.rs)

The CPU holds the MMU behind `Rc<RefCell<dyn Memory>>`; at this level the
bus is an arbitrary byte function over the 16-bit address space. -/

/-- CPU state (cpu/mod.rs lines 26-32). -/
structure CpuState where
  registers : Registers
  mem : Nat → Nat
  halted : Bool
  stopped : Bool
  ei : Bool

/-- Point update of the memory function (`Memory::set_byte` on the bus). -/
def CpuState.set_byte_in_memory (c : CpuState) (addr value : Nat) : CpuState :=
  { c with mem := fun a => if a = addr then value else c.mem a }

/-- `Memory::set_word` (memory.rs lines 10-13), little endian; the
`addr + 1` of the trait default is a `u16` addition, hence the modulus. -/
def CpuState.set_word_in_memory (c : CpuState) (addr value : Nat) : CpuState :=
  (c.set_byte_in_memory addr (value &&& 0xFF)).set_byte_in_memory ((addr + 1) % 0x10000) ((value >>> 8) % 256)

/-- `CPU::get_byte_at_pc` (cpu/mod.rs lines 46-50).  `pc += 1` wraps
modulo 2^16 (release-profile `u16` addition). -/
def CpuState.get_byte_at_pc (c : CpuState) : Nat × CpuState :=
  (c.mem c.registers.pc % 256,
   { c with registers := { c.registers with pc := (c.registers.pc + 1) % 0x10000 } })

/-- `CPU::add_to_stack` (cpu/mod.rs lines 75-78): `sp -= 2` then a
little-endian word write at the new `sp`.  The `u16` subtraction wraps
modulo 2^16 (release profile). -/
def CpuState.add_to_stack (c : CpuState) (value : Nat) : CpuState :=
  let c := { c with registers := { c.registers with sp := (c.registers.sp + 0x10000 - 2) % 0x10000 } }
  c.set_word_in_memory c.registers.sp value

/-- `CPU::pop_stack` (cpu/mod.rs lines 80-84). -/
def CpuState.pop_stack (c : CpuState) : Nat × CpuState :=
  let lo := c.mem c.registers.sp % 256
  let hi := c.mem ((c.registers.sp + 1) % 0x10000) % 256
  ((hi <<< 8) ||| lo,
   { c with registers := { c.registers with sp := (c.registers.sp + 2) % 0x10000 } })

/-! ## CPU instruction cycle tables and step (src/cpu/op_codes.rs, cb_codes.rs) -/

/-- `OP_CYCLES` (op_codes.rs lines 12-29), in machine cycles. -/
def OP_CYCLES : List Nat :=
  [1, 3, 2, 2, 1, 1, 2, 1, 5, 2, 2, 2, 1, 1, 2, 1,
   0, 3, 2, 2, 1, 1, 2, 1, 3, 2, 2, 2, 1, 1, 2, 1,
   2, 3, 2, 2, 1, 1, 2, 1, 2, 2, 2, 2, 1, 1, 2, 1,
   2, 3, 2, 2, 3, 3, 3, 1, 2, 2, 2, 2, 1, 1, 2, 1,
   1, 1, 1, 1, 1, 1, 2, 1, 1, 1, 1, 1, 1, 1, 2, 1,
   1, 1, 1, 1, 1, 1, 2, 1, 1, 1, 1, 1, 1, 1, 2, 1,
   1, 1, 1, 1, 1, 1, 2, 1, 1, 1, 1, 1, 1, 1, 2, 1,
   2, 2, 2, 2, 2, 2, 0, 2, 1, 1, 1, 1, 1, 1, 2, 1,
   1, 1, 1, 1, 1, 1, 2, 1, 1, 1, 1, 1, 1, 1, 2, 1,
   1, 1, 1, 1, 1, 1, 2, 1, 1, 1, 1, 1, 1, 1, 2, 1,
   1, 1, 1, 1, 1, 1, 2, 1, 1, 1, 1, 1, 1, 1, 2, 1,
   1, 1, 1, 1, 1, 1, 2, 1, 1, 1, 1, 1, 1, 1, 2, 1,
   2, 3, 3, 4, 3, 4, 2, 4, 2, 4, 3, 0, 3, 6, 2, 4,
   2, 3, 3, 0, 3, 4, 2, 4, 2, 4, 3, 0, 3, 0, 2, 4,
   3, 3, 2, 0, 0, 4, 2, 4, 4, 1, 4, 0, 0, 0, 2, 4,
   3, 3, 2, 1, 0, 4, 2, 4, 3, 2, 4, 1, 0, 0, 2, 4]

/-- `CB_CYCLES` (cb_codes.rs lines 12-29), in machine cycles. -/
def CB_CYCLES : List Nat :=
  [2, 2, 2, 2, 2, 2, 4, 2, 2, 2, 2, 2, 2, 2, 4, 2,
   2, 2, 2, 2, 2, 2, 4, 2, 2, 2, 2, 2, 2, 2, 4, 2,
   2, 2, 2, 2, 2, 2, 4, 2, 2, 2, 2, 2, 2, 2, 4, 2,
   2, 2, 2, 2, 2, 2, 4, 2, 2, 2, 2, 2, 2, 2, 4, 2,
   2, 2, 2, 2, 2, 2, 3, 2, 2, 2, 2, 2, 2, 2, 3, 2,
   2, 2, 2, 2, 2, 2, 3, 2, 2, 2, 2, 2, 2, 2, 3, 2,
   2, 2, 2, 2, 2, 2, 3, 2, 2, 2, 2, 2, 2, 2, 3, 2,
   2, 2, 2, 2, 2, 2, 3, 2, 2, 2, 2, 2, 2, 2, 3, 2,
   2, 2, 2, 2, 2, 2, 4, 2, 2, 2, 2, 2, 2, 2, 4, 2,
   2, 2, 2, 2, 2, 2, 4, 2, 2, 2, 2, 2, 2, 2, 4, 2,
   2, 2, 2, 2, 2, 2, 4, 2, 2, 2, 2, 2, 2, 2, 4, 2,
   2, 2, 2, 2, 2, 2, 4, 2, 2, 2, 2, 2, 2, 2, 4, 2,
   2, 2, 2, 2, 2, 2, 4, 2, 2, 2, 2, 2, 2, 2, 4, 2,
   2, 2, 2, 2, 2, 2, 4, 2, 2, 2, 2, 2, 2, 2, 4, 2,
   2, 2, 2, 2, 2, 2, 4, 2, 2, 2, 2, 2, 2, 2, 4, 2,
   2, 2, 2, 2, 2, 2, 4, 2, 2, 2, 2, 2, 2, 2, 4, 2]

/-- Cycle outcome of `CPU::execute` (op_codes.rs lines 33-845).  In the
source, the only arm of the 256-way `match op_code` containing a `return`
is the `0xCB` prefix arm (line 610), which returns `execute_cb`'s value
(`CB_CYCLES[cb_code]`, cb_codes.rs line 700).  Every other arm ends
without a value, so control reaches the unconditional
`panic` on line 844 (its message reads: cpu num cycles returned not
implemented); the `OP_CYCLES` table is never consulted.  The per-arm state
effects precede an abort of the whole process and are not observable, so
only the returned machine-cycle count (or the abort, `none`) is embedded;
the `0xCB` arm first fetches the CB opcode at `pc`. -/
def CpuState.execute_cycles (c : CpuState) (op_code : Nat) : Option Nat :=
  if op_code = 0xCB then
    let cb_code := (c.get_byte_at_pc).1
    some (CB_CYCLES.getD cb_code 0)
  else
    none

/-- `CPU::handle_interrupts` (cpu/mod.rs lines 93-121): machine cycles
spent on dispatch, together with the state after it. -/
def CpuState.handle_interrupts (c : CpuState) : Nat × CpuState :=
  if !c.halted && !c.ei then (0, c)
  else
    let interrupts_asserted := c.mem 0xFF0F % 256
    let interrupts_enabled := c.mem 0xFFFF % 256
    let interrupts := interrupts_asserted &&& interrupts_enabled
    if interrupts = 0 then (0, c)
    else
      let c := { c with halted := false }
      if !c.ei then (0, c)
      else
        let c := { c with ei := false }
        let n := Nat.log2 (interrupts &&& (interrupts ^^^ (interrupts - 1)))
        let c := c.set_byte_in_memory 0xFF0F (interrupts_asserted &&& ((1 <<< n) ^^^ 0xFF))
        let c := c.add_to_stack c.registers.pc
        let c := { c with registers := { c.registers with pc := 0x0040 ||| (n <<< 3) } }
        (4, c)

/-- Cycle outcome of `CPU::run` (cpu/mod.rs lines 123-138): master-clock
cycles (`cycles * 4`), or `none` when the step aborts inside
`CPU::execute`. -/
def CpuState.run_result (c : CpuState) : Option Nat :=
  let (n, c1) := c.handle_interrupts
  if n ≠ 0 then some (n * 4)
  else if c1.halted then some (1 * 4)
  else
    let (op_code, c2) := c1.get_byte_at_pc
    (c2.execute_cycles op_code).map (fun k => k * 4)

/-! ## Clock and Timer (src/clock.rs, src/timer.rs) -/

/-- `Clock` (clock.rs lines 3-7). -/
structure Clock where
  period : Nat
  num_cycles : Nat
deriving DecidableEq, Repr

/-- `Clock::new` (clock.rs lines 10-15). -/
def Clock.new (period : Nat) : Clock :=
  { period := period, num_cycles := 0 }

/-- `Clock::run_cycles` (clock.rs lines 17-22): returns the normalized
tick count and the updated clock. -/
def Clock.run_cycles (c : Clock) (cycles : Nat) : Nat × Clock :=
  let n := c.num_cycles + cycles
  (n / c.period, { c with num_cycles := n % c.period })

/-- Timer registers (timer.rs lines 30-36). -/
structure TimerRegisters where
  div : Nat
  tima : Nat
  tma : Nat
  tac : Nat
deriving DecidableEq, Repr

/-- `Timer` (timer.rs lines 49-55).  `interrupt` is the local interrupt
field the MMU ORs into IF. -/
structure Timer where
  registers : TimerRegisters
  div_clock : Clock
  tma_clock : Clock
  interrupt : Nat
deriving DecidableEq, Repr

/-- `Timer::new` (timer.rs lines 58-65). -/
def Timer.new : Timer :=
  { registers := { div := 0, tima := 0, tma := 0, tac := 0 },
    div_clock := Clock.new 256,
    tma_clock := Clock.new 1024,
    interrupt := 0 }

/-- The body of the TIMA increment loop in `Timer::run_cycles`
(timer.rs lines 78-86): `tima = tima.wrapping_add(1)`, reload from TMA
and raise `InterruptFlag::Timer` (bit 2) on overflow. -/
def Timer.tima_step (t : Timer) : Timer :=
  let tima := (t.registers.tima + 1) % 256
  if tima = 0 then
    { t with registers := { t.registers with tima := t.registers.tma },
             interrupt := t.interrupt ||| 0x04 }
  else
    { t with registers := { t.registers with tima := tima } }

/-- `Timer::run_cycles` (timer.rs lines 67-88). -/
def Timer.run_cycles (t : Timer) (cycles : Nat) : Timer :=
  let (dticks, div_clock) := t.div_clock.run_cycles cycles
  let t := { t with registers := { t.registers with div := (t.registers.div + dticks % 256) % 256 },
                    div_clock := div_clock }
  if t.registers.tac &&& 0x04 ≠ 0 then
    let (n, tma_clock) := t.tma_clock.run_cycles cycles
    Timer.tima_step^[n] { t with tma_clock := tma_clock }
  else
    t

/-- `<Timer as Memory>::set_byte` (timer.rs lines 106-138); addresses
outside `0xFF04..=0xFF07` hit the panic arm, embedded as `none`. -/
def Timer.set_byte (t : Timer) (addr value : Nat) : Option Timer :=
  if addr = 0xFF04 then
    some { t with registers := { t.registers with div := 0 },
                  div_clock := { t.div_clock with num_cycles := 0 } }
  else if addr = 0xFF05 then
    some { t with registers := { t.registers with tima := value } }
  else if addr = 0xFF06 then
    some { t with registers := { t.registers with tma := value } }
  else if addr = 0xFF07 then
    let t :=
      if t.registers.tac &&& 0x03 ≠ value &&& 0x03 then
        { t with tma_clock :=
                   { period := if value &&& 0x03 = 0 then 1024
                               else if value &&& 0x03 = 1 then 16
                               else if value &&& 0x03 = 2 then 64
                               else 256,
                     num_cycles := 0 },
                 registers := { t.registers with tima := t.registers.tma } }
      else t
    some { t with registers := { t.registers with tac := value } }
  else
    none

/-- `<Timer as Memory>::get_byte` (timer.rs lines 92-104). -/
def Timer.get_byte (t : Timer) (addr : Nat) : Option Nat :=
  if addr = 0xFF04 then some t.registers.div
  else if addr = 0xFF05 then some t.registers.tima
  else if addr = 0xFF06 then some t.registers.tma
  else if addr = 0xFF07 then some t.registers.tac
  else none

/-! ## MMU WRAM banking (src/mmu.rs) -/

/-- `WRAM_SIZE` (mmu.rs line 39). -/
def WRAM_SIZE : Nat := 0x8000

/-- `WRAM_BANK_SIZE` (mmu.rs line 40). -/
def WRAM_BANK_SIZE : Nat := 0x1000

/-- The WRAM-related slice of `Mmu` state (mmu.rs lines 42-63):
`wram: [u8; WRAM_SIZE]` and the `wram_bank: usize` register. -/
structure MmuWram where
  wram : Nat → Nat
  wram_bank : Nat

/-- The initial WRAM state set in `Mmu::new` (mmu.rs lines 79-80):
zeroed WRAM, `wram_bank = 0x01`. -/
def MmuWram.new : MmuWram :=
  { wram := fun _ => 0, wram_bank := 1 }

/-- `self.wram[i]` with the bounds check Rust indexing performs on the
`[u8; 0x8000]` array; `none` is the out-of-bounds abort. -/
def MmuWram.wram_at (m : MmuWram) (i : Nat) : Option Nat :=
  if i < WRAM_SIZE then some (m.wram i) else none

/-- The WRAM and ECHO arms of `<Mmu as Memory>::get_byte`
(mmu.rs lines 208-222); other address ranges of the bus are not part of
this slice and yield `none` here. -/
def MmuWram.get_byte (m : MmuWram) (addr : Nat) : Option Nat :=
  if 0xC000 ≤ addr ∧ addr ≤ 0xCFFF then m.wram_at (addr - 0xC000)
  else if 0xD000 ≤ addr ∧ addr ≤ 0xDFFF then
    m.wram_at (addr - 0xD000 + WRAM_BANK_SIZE * m.wram_bank)
  else if 0xE000 ≤ addr ∧ addr ≤ 0xEFFF then m.wram_at (addr - 0xE000)
  else if 0xF000 ≤ addr ∧ addr ≤ 0xFDFF then
    m.wram_at (addr - 0xF000 + WRAM_BANK_SIZE * m.wram_bank)
  else none

/-- The WRAM and ECHO arms of `<Mmu as Memory>::set_byte`
(mmu.rs lines 282-295). -/
def MmuWram.set_byte_wram (m : MmuWram) (addr value : Nat) : Option MmuWram :=
  if 0xC000 ≤ addr ∧ addr ≤ 0xCFFF then
    if addr - 0xC000 < WRAM_SIZE then
      some { m with wram := fun i => if i = addr - 0xC000 then value else m.wram i }
    else none
  else if 0xD000 ≤ addr ∧ addr ≤ 0xDFFF then
    let idx := addr - 0xD000 + WRAM_BANK_SIZE * m.wram_bank
    if idx < WRAM_SIZE then
      some { m with wram := fun i => if i = idx then value else m.wram i }
    else none
  else none

/-- The `0xFF70` (SVBK) arm of `<Mmu as Memory>::set_byte`
(mmu.rs lines 356-364): `wram_bank = match value & 0x07 { 0x00 => 1,
_ => value as usize }` — note the un-masked `value` in the second arm. -/
def MmuWram.set_wram_bank (m : MmuWram) (value : Nat) : MmuWram :=
  { m with wram_bank := if value &&& 0x07 = 0 then 1 else value }


/-! ## Cartridge validation (src/cartridges/mod.rs)

The `cartridges::new` constructor receives the ROM as a byte vector.  All
header reads performed by validation go through the `0x0000..=0x3FFF` ROM
arm of every MBC's `get_byte`, which returns `rom[addr]` directly, so
validation is a pure function of the byte vector. -/

/-- `NINTENDO_LOGO` (cartridges/mod.rs lines 42-46). -/
def NINTENDO_LOGO : List Nat :=
  [0xCE, 0xED, 0x66, 0x66, 0xCC, 0x0D, 0x00, 0x0B, 0x03, 0x73, 0x00, 0x83,
   0x00, 0x0C, 0x00, 0x0D, 0x00, 0x08, 0x11, 0x1F, 0x88, 0x89, 0x00, 0x0E,
   0xDC, 0xCC, 0x6E, 0xE6, 0xDD, 0xDD, 0xD9, 0x99, 0xBB, 0xBB, 0x67, 0x63,
   0x6E, 0x0E, 0xEC, 0xCC, 0xDD, 0xDC, 0x99, 0x9F, 0xBB, 0xB9, 0x33, 0x3E]

/-- `rom[i]` for the indices validation touches; every such index is
below the length bound `0x150` checked first, so the default never
materializes on the paths the theorems take. -/
def rom_get (rom : List Nat) (i : Nat) : Nat :=
  rom.getD i 0

/-- `get_rom_size` (cartridges/mod.rs lines 234-252): advertised maximum
ROM size from the byte at `0x148`, or `none` for the panic arm. -/
def get_rom_size (b : Nat) : Option Nat :=
  if b = 0x00 then some (16384 * 2)
  else if b = 0x01 then some (16384 * 4)
  else if b = 0x02 then some (16384 * 8)
  else if b = 0x03 then some (16384 * 16)
  else if b = 0x04 then some (16384 * 32)
  else if b = 0x05 then some (16384 * 64)
  else if b = 0x06 then some (16384 * 128)
  else if b = 0x07 then some (16384 * 256)
  else if b = 0x08 then some (16384 * 512)
  else if b = 0x52 then some (16384 * 72)
  else if b = 0x53 then some (16384 * 80)
  else if b = 0x54 then some (16384 * 96)
  else none

/-- `get_ram_size` (cartridges/mod.rs lines 264-275), or `none` for the
panic arm. -/
def get_ram_size (b : Nat) : Option Nat :=
  if b = 0x00 then some 0
  else if b = 0x01 then some (1024 * 2)
  else if b = 0x02 then some (1024 * 8)
  else if b = 0x03 then some (1024 * 32)
  else if b = 0x04 then some (1024 * 128)
  else if b = 0x05 then some (1024 * 64)
  else none

/-- The MBC-type bytes `cartridges::new` (lines 156-212) constructs a
cartridge for; any other byte hits the `unsupported type` panic arm. -/
def supported_mbc (t : Nat) : Bool :=
  t = 0x00 ∨ t = 0x01 ∨ t = 0x02 ∨ t = 0x03 ∨ t = 0x05 ∨ t = 0x06 ∨
  t = 0x0F ∨ t = 0x10 ∨ t = 0x11 ∨ t = 0x12 ∨ t = 0x13 ∨
  t = 0x19 ∨ t = 0x1A ∨ t = 0x1B

/-- The MBC-type bytes whose `cartridges::new` arm calls `get_ram_size`
(and can therefore abort on an unsupported byte at `0x149`). -/
def mbc_reads_ram_size (t : Nat) : Bool :=
  t = 0x02 ∨ t = 0x03 ∨ t = 0x10 ∨ t = 0x12 ∨ t = 0x13 ∨ t = 0x1A ∨ t = 0x1B

/-- `Cartridge::verify_nintendo_logo` (cartridges/mod.rs lines 85-91):
`true` when all 48 bytes compare equal, `false` for the panic. -/
def verify_nintendo_logo (rom : List Nat) : Bool :=
  (List.range 48).all (fun i => rom_get rom (0x0104 + i) = NINTENDO_LOGO.getD i 0)

/-- The accumulator loop of `Cartridge::verify_header_checksum`
(cartridges/mod.rs lines 99-102): `checksum = checksum.wrapping_sub(byte)
.wrapping_sub(1)` over a list of bytes, starting from `c`. -/
def checksum_fold (c : Nat) (bs : List Nat) : Nat :=
  bs.foldl (fun c b => ((c + 256 - b) % 256 + 255) % 256) c

/-- The header bytes `0x0134..0x014D` (exclusive) the checksum ranges over. -/
def header_bytes (rom : List Nat) : List Nat :=
  (List.range 0x19).map (fun i => rom_get rom (0x0134 + i))

/-- `Cartridge::verify_header_checksum` (cartridges/mod.rs lines 98-106):
`true` when the byte at `0x014D` equals the computed checksum. -/
def verify_header_checksum (rom : List Nat) : Bool :=
  rom_get rom 0x014D = checksum_fold 0 (header_bytes rom)

/-- Acceptance of `cartridges::new` (cartridges/mod.rs lines 144-218)
with checks enabled (`skip_checks = false`): `true` when the constructor
returns, `false` when any of its panics fires.  In order: the `0x150`
size check (line 146), `get_rom_size` and the advertised-maximum check
(lines 149-152), the MBC-type dispatch (lines 156-211, with
`get_ram_size` called in the RAM-carrying arms), then
`verify_nintendo_logo` and `verify_header_checksum` (lines 213-216).
File I/O (`read_ram_from_save`, save paths) never aborts: a missing save
file falls back to a zero-filled RAM. -/
def cartridges_new_accepts (rom : List Nat) (skip_checks : Bool) : Bool :=
  if rom.length < 0x150 then false
  else
    match get_rom_size (rom_get rom 0x0148) with
    | none => false
    | some rom_max_size =>
      if rom.length > rom_max_size then false
      else if ¬ supported_mbc (rom_get rom 0x0147) then false
      else if mbc_reads_ram_size (rom_get rom 0x0147) ∧
              get_ram_size (rom_get rom 0x0149) = none then false
      else if skip_checks then true
      else verify_nintendo_logo rom && verify_header_checksum rom

/-- The checksum condition exactly as claim C6 words it:
`rom[0x14D] = (-1 - sum of bytes 0x0134..0x014D) mod 256` (written over
`Nat`: `(-1 - s) mod 256 = (511 - s % 256) % 256`). -/
def claim_header_checksum (rom : List Nat) : Nat :=
  (511 - (header_bytes rom).sum % 256) % 256

/-- The checksum value the code actually requires, in closed form:
`(-(sum + 0x19)) mod 256` over the 0x19 bytes `0x0134..0x014C`. -/
def code_header_checksum (rom : List Nat) : Nat :=
  (256 - ((header_bytes rom).sum + 0x19) % 256) % 256

/-- The logo condition as the spec words it. -/
def logo_matches (rom : List Nat) : Prop :=
  ∀ i < 48, rom_get rom (0x0104 + i) = NINTENDO_LOGO.getD i 0

instance (rom : List Nat) : Decidable (logo_matches rom) := by
  unfold logo_matches; infer_instance

/-- A 0x150-byte ROM whose header area is all zero except the canonical
logo and a checksum byte `0xFF` at `0x014D`: it satisfies claim C6's
acceptance conditions literally (size, logo, and the claimed checksum
formula `(-1 - 0) mod 256 = 0xFF`), its MBC byte `0x00` (ROM only) and
ROM-size byte `0x00` (32 KiB ≥ 0x150) are supported, yet the code
computes checksum `(-0x19) mod 256 = 0xE7` and rejects it. -/
def rom6 : List Nat :=
  List.replicate 0x104 0 ++ NINTENDO_LOGO ++ List.replicate 0x19 0 ++ [0xFF, 0, 0]


/-! ## APU register file and bus writes (src/apu/mod.rs, src/apu/channels/*)

Each channel's `Register` block lives behind `Rc<RefCell<_>>`, shared
between the channel and its sub-units; here the sharing is resolved by
threading the register value explicitly.  The `Blip` band-limited
buffers, the shared audio ring and the host stream are only touched by
`run_cycles`/`mix`, never by `set_byte`, and are not part of this slice. -/

/-- One `Register` block, `nrx0..nrx4` (channels/mod.rs lines 60-67).
The `channel` discriminant is implicit in which structure holds it. -/
structure ChannelReg where
  nrx0 : Nat
  nrx1 : Nat
  nrx2 : Nat
  nrx3 : Nat
  nrx4 : Nat
deriving DecidableEq, Repr

/-- `Register::clear` (channels/mod.rs lines 89-95). -/
def ChannelReg.clear : ChannelReg :=
  { nrx0 := 0, nrx1 := 0, nrx2 := 0, nrx3 := 0, nrx4 := 0 }

/-- `Register::get_length_load` (channels/mod.rs lines 137-147);
`is_wave` selects the `(1 << 8) - nrx1` branch. -/
def ChannelReg.get_length_load (r : ChannelReg) (is_wave : Bool) : Nat :=
  if is_wave then (1 <<< 8) - (r.nrx1 % 256) else (1 <<< 6) - (r.nrx1 &&& 0x3F)

/-- `Register::get_starting_volume` (channels/mod.rs lines 159-169). -/
def ChannelReg.get_starting_volume (r : ChannelReg) : Nat :=
  (r.nrx2 % 256) >>> 4

/-- `Register::get_period` (channels/mod.rs lines 193-203). -/
def ChannelReg.get_period (r : ChannelReg) : Nat :=
  r.nrx2 &&& 0x07

/-- `Register::get_frequency` (channels/mod.rs lines 205-218). -/
def ChannelReg.get_frequency (r : ChannelReg) : Nat :=
  ((r.nrx4 &&& 0x07) <<< 8) ||| (r.nrx3 % 256)

/-- `Register::set_frequency` (channels/mod.rs lines 220-236). -/
def ChannelReg.set_frequency (r : ChannelReg) (frequency : Nat) : ChannelReg :=
  { r with nrx4 := (r.nrx4 &&& 0xF8) ||| ((frequency >>> 8) &&& 0x07),
           nrx3 := frequency % 256 }

/-- `Register::get_sweep_period` (channels/mod.rs lines 97-105). -/
def ChannelReg.get_sweep_period (r : ChannelReg) : Nat :=
  (r.nrx0 &&& 0x70) >>> 4

/-- `Register::get_negate` (channels/mod.rs lines 107-115). -/
def ChannelReg.get_negate (r : ChannelReg) : Bool :=
  r.nrx0 &&& 0x08 ≠ 0

/-- `Register::get_shift` (channels/mod.rs lines 117-125). -/
def ChannelReg.get_shift (r : ChannelReg) : Nat :=
  r.nrx0 &&& 0x07

/-- `Register::get_clock_shift` (channels/mod.rs lines 238-246). -/
def ChannelReg.get_clock_shift (r : ChannelReg) : Nat :=
  (r.nrx3 % 256) >>> 4

/-- `Register::get_dividor_code` (channels/mod.rs lines 258-266). -/
def ChannelReg.get_dividor_code (r : ChannelReg) : Nat :=
  r.nrx3 &&& 0x07

/-- `Register::get_trigger` (channels/mod.rs lines 268-274). -/
def ChannelReg.get_trigger (r : ChannelReg) : Bool :=
  r.nrx4 &&& 0x80 ≠ 0

/-- `Register::set_trigger` (channels/mod.rs lines 276-286). -/
def ChannelReg.set_trigger (r : ChannelReg) (value : Bool) : ChannelReg :=
  if value then { r with nrx4 := r.nrx4 ||| 0x80 }
  else { r with nrx4 := r.nrx4 &&& 0x7F }

/-- `Register::get_power_status` (channels/mod.rs lines 316-324),
meaningful on the control block. -/
def ChannelReg.get_power_status (r : ChannelReg) : Bool :=
  r.nrx2 &&& 0x80 ≠ 0

/-- The three channel shapes `get_clock_period` distinguishes
(channels/mod.rs lines 375-403). -/
inductive ChannelKind
  | square1
  | square2
  | wave
  | noise
deriving DecidableEq, Repr

/-- `Register::get_clock_period` (channels/mod.rs lines 375-403). -/
def ChannelReg.get_clock_period (r : ChannelReg) (kind : ChannelKind) : Nat :=
  match kind with
  | .square1 | .square2 => (2048 - r.get_frequency) * 4
  | .wave => (2048 - r.get_frequency) * 2
  | .noise =>
    let divisor := if r.get_dividor_code = 0 then 8 else r.get_dividor_code * 16
    divisor <<< r.get_clock_shift

/-- `LengthCounter` (channels/mod.rs lines 506-509), register threaded
separately. -/
structure LengthCounter where
  n : Nat
deriving DecidableEq, Repr

/-- `LengthCounter::reload` (channels/mod.rs lines 528-536). -/
def LengthCounter.reload (lc : LengthCounter) (is_wave : Bool) : LengthCounter :=
  if lc.n = 0 then { n := if is_wave then 1 <<< 8 else 1 <<< 6 } else lc

/-- `VolumeEnvelope` (channels/mod.rs lines 457-461), register threaded
separately. -/
structure VolumeEnvelope where
  volume : Nat
  clock : Clock
deriving DecidableEq, Repr

/-- `VolumeEnvelope::reload` (channels/mod.rs lines 472-477). -/
def VolumeEnvelope.reload (ve : VolumeEnvelope) (reg : ChannelReg) : VolumeEnvelope :=
  { ve with clock := { ve.clock with period := if reg.get_period = 0 then 8 else reg.get_period },
            volume := reg.get_starting_volume }

/-- `FrequencySweep` (square.rs lines 173-179), register threaded
separately. -/
structure FrequencySweep where
  clock : Clock
  enable : Bool
  shadow : Nat
  new_frequency : Nat
deriving DecidableEq, Repr

/-- `FrequencySweep::frequency_calculation` (square.rs lines 204-211);
the `u16` wrapping add/sub is a modulus. -/
def FrequencySweep.frequency_calculation (fs : FrequencySweep) (reg : ChannelReg) : FrequencySweep :=
  let offset := fs.shadow >>> reg.get_shift
  if reg.get_negate then { fs with new_frequency := (fs.shadow + 0x10000 - offset) % 0x10000 }
  else { fs with new_frequency := (fs.shadow + offset) % 0x10000 }

/-- `FrequencySweep::overflow_check` (square.rs lines 213-218): may clear
the trigger bit in the shared register. -/
def FrequencySweep.overflow_check (fs : FrequencySweep) (reg : ChannelReg) : ChannelReg :=
  if fs.new_frequency > 2047 then reg.set_trigger false else reg

/-- `FrequencySweep::reload` (square.rs lines 192-202). -/
def FrequencySweep.reload (fs : FrequencySweep) (reg : ChannelReg) :
    FrequencySweep × ChannelReg :=
  let fs := { fs with shadow := reg.get_frequency }
  let period := reg.get_sweep_period
  let fs := { fs with clock := { fs.clock with period := if period = 0 then 8 else period } }
  let fs := { fs with enable := period ≠ 0 ∨ reg.get_shift ≠ 0 }
  if reg.get_shift ≠ 0 then
    let fs := fs.frequency_calculation reg
    (fs, fs.overflow_check reg)
  else (fs, reg)

/-- `SquareChannel` (square.rs lines 31-39) without its `Blip` buffer. -/
structure SquareChannel where
  register : ChannelReg
  clock : Clock
  length_counter : LengthCounter
  volume_envelope : VolumeEnvelope
  frequency_sweep : FrequencySweep
  index : Nat
deriving DecidableEq, Repr

/-- The channel kind stored in a square channel's register (`Square1`
for `channel1`, `Square2` for `channel2`). -/
def square_kind (is_sq1 : Bool) : ChannelKind :=
  if is_sq1 then .square1 else .square2

/-- `<SquareChannel as Memory>::set_byte` (square.rs lines 109-149).
`is_sq1` mirrors `register.channel == Channel::Square1`.  Addresses
outside the two 5-byte windows hit the panic arm (`none`). -/
def SquareChannel.set_byte (ch : SquareChannel) (is_sq1 : Bool) (addr value : Nat) :
    Option SquareChannel :=
  if addr = 0xFF10 ∨ addr = 0xFF15 then
    some { ch with register := { ch.register with nrx0 := value } }
  else if addr = 0xFF11 ∨ addr = 0xFF16 then
    let register := { ch.register with nrx1 := value }
    some { ch with register,
                   length_counter := { n := register.get_length_load false } }
  else if addr = 0xFF12 ∨ addr = 0xFF17 then
    some { ch with register := { ch.register with nrx2 := value } }
  else if addr = 0xFF13 ∨ addr = 0xFF18 then
    let register := { ch.register with nrx3 := value }
    some { ch with register,
                   clock := { ch.clock with period := register.get_clock_period (square_kind is_sq1) } }
  else if addr = 0xFF14 ∨ addr = 0xFF19 then
    let register := { ch.register with nrx4 := value }
    let clock := { ch.clock with period := register.get_clock_period (square_kind is_sq1) }
    if register.get_trigger then
      let length_counter := ch.length_counter.reload false
      let volume_envelope := ch.volume_envelope.reload register
      if is_sq1 then
        let (frequency_sweep, register) := ch.frequency_sweep.reload register
        some { ch with register, clock, length_counter, volume_envelope, frequency_sweep }
      else
        some { ch with register, clock, length_counter, volume_envelope }
    else
      some { ch with register, clock }
  else none

/-- `WaveChannel` (wave.rs lines 34-42) without its `Blip` buffer. -/
structure WaveChannel where
  register : ChannelReg
  length_counter : LengthCounter
  clock : Clock
  wave_ram : Nat → Nat
  wave_index : Nat

/-- `<WaveChannel as Memory>::set_byte` (wave.rs lines 116-149). -/
def WaveChannel.set_byte (ch : WaveChannel) (addr value : Nat) : Option WaveChannel :=
  if addr = 0xFF1A then
    some { ch with register := { ch.register with nrx0 := value } }
  else if addr = 0xFF1B then
    let register := { ch.register with nrx1 := value }
    some { ch with register,
                   length_counter := { n := register.get_length_load true } }
  else if addr = 0xFF1C then
    some { ch with register := { ch.register with nrx2 := value } }
  else if addr = 0xFF1D then
    let register := { ch.register with nrx3 := value }
    some { ch with register,
                   clock := { ch.clock with period := register.get_clock_period .wave } }
  else if addr = 0xFF1E then
    let register := { ch.register with nrx4 := value }
    let clock := { ch.clock with period := register.get_clock_period .wave }
    if register.get_trigger then
      some { ch with register, clock,
                     length_counter := ch.length_counter.reload true,
                     wave_index := 0 }
    else
      some { ch with register, clock }
  else if 0xFF30 ≤ addr ∧ addr ≤ 0xFF3F then
    some { ch with wave_ram := fun i => if i = addr - 0xFF30 then value else ch.wave_ram i }
  else none

/-- `<WaveChannel as Memory>::get_byte` (wave.rs lines 98-114). -/
def WaveChannel.get_byte (ch : WaveChannel) (addr : Nat) : Option Nat :=
  if addr = 0xFF1A then some ch.register.nrx0
  else if addr = 0xFF1B then some ch.register.nrx1
  else if addr = 0xFF1C then some ch.register.nrx2
  else if addr = 0xFF1D then some ch.register.nrx3
  else if addr = 0xFF1E then some ch.register.nrx4
  else if 0xFF30 ≤ addr ∧ addr ≤ 0xFF3F then some (ch.wave_ram (addr - 0xFF30))
  else none

/-- `NoiseChannel` (noise.rs lines 27-34) without its `Blip` buffer;
`lfsr` is the `Lfsr.n` shift register. -/
structure NoiseChannel where
  register : ChannelReg
  length_counter : LengthCounter
  volume_envelope : VolumeEnvelope
  clock : Clock
  lfsr : Nat
deriving DecidableEq, Repr

/-- `<NoiseChannel as Memory>::set_byte` (noise.rs lines 81-112). -/
def NoiseChannel.set_byte (ch : NoiseChannel) (addr value : Nat) : Option NoiseChannel :=
  if addr = 0xFF1F then
    some { ch with register := { ch.register with nrx0 := value } }
  else if addr = 0xFF20 then
    let register := { ch.register with nrx1 := value }
    some { ch with register,
                   length_counter := { n := register.get_length_load false } }
  else if addr = 0xFF21 then
    some { ch with register := { ch.register with nrx2 := value } }
  else if addr = 0xFF22 then
    let register := { ch.register with nrx3 := value }
    some { ch with register,
                   clock := { ch.clock with period := register.get_clock_period .noise } }
  else if addr = 0xFF23 then
    let register := { ch.register with nrx4 := value }
    if register.get_trigger then
      some { ch with register,
                     length_counter := ch.length_counter.reload false,
                     volume_envelope := ch.volume_envelope.reload register,
                     lfsr := 1 }
    else
      some { ch with register }
  else none

/-- `Apu` (apu/mod.rs lines 32-43) without the host audio stream, the
sample ring and the per-channel `Blip` buffers (none of which `set_byte`
touches); `control` is the `register` field (`Channel::Control`). -/
structure Apu where
  control : ChannelReg
  clock : Clock
  frame_sequencer_step : Nat
  channel1 : SquareChannel
  channel2 : SquareChannel
  channel3 : WaveChannel
  channel4 : NoiseChannel

/-- `Apu::get_power_status` on the control block via
`self.register.get_power_status()` (NR52 bit 7). -/
def Apu.get_power_status (a : Apu) : Bool :=
  a.control.get_power_status

/-- `<Apu as Memory>::set_byte` (apu/mod.rs lines 262-297).  The guard on
lines 264-266 returns early — leaving the whole APU untouched — for every
address other than `0xFF26` while power is off.  Writing `0xFF26` stores
`value` into NR52 and, when the new power bit is clear, clears the four
channel register blocks and the control block (lines 281-292); Wave RAM
lives outside the register blocks and is untouched.  Addresses outside
the APU map hit a panic arm (`none`). -/
def Apu.set_byte (a : Apu) (addr value : Nat) : Option Apu :=
  if addr ≠ 0xFF26 ∧ a.get_power_status = false then some a
  else if 0xFF10 ≤ addr ∧ addr ≤ 0xFF14 then
    (a.channel1.set_byte true addr value).map (fun ch => { a with channel1 := ch })
  else if 0xFF15 ≤ addr ∧ addr ≤ 0xFF19 then
    (a.channel2.set_byte false addr value).map (fun ch => { a with channel2 := ch })
  else if 0xFF1A ≤ addr ∧ addr ≤ 0xFF1E then
    (a.channel3.set_byte addr value).map (fun ch => { a with channel3 := ch })
  else if 0xFF1F ≤ addr ∧ addr ≤ 0xFF23 then
    (a.channel4.set_byte addr value).map (fun ch => { a with channel4 := ch })
  else if addr = 0xFF24 then
    some { a with control := { a.control with nrx0 := value } }
  else if addr = 0xFF25 then
    some { a with control := { a.control with nrx1 := value } }
  else if addr = 0xFF26 then
    let a := { a with control := { a.control with nrx2 := value } }
    if a.get_power_status = false then
      some { a with channel1 := { a.channel1 with register := ChannelReg.clear },
                    channel2 := { a.channel2 with register := ChannelReg.clear },
                    channel3 := { a.channel3 with register := ChannelReg.clear },
                    channel4 := { a.channel4 with register := ChannelReg.clear },
                    control := ChannelReg.clear }
    else some a
  else if 0xFF30 ≤ addr ∧ addr ≤ 0xFF3F then
    (a.channel3.set_byte addr value).map (fun ch => { a with channel3 := ch })
  else none

/-- A concrete APU state mirroring `Apu::new` (apu/mod.rs lines 46-64)
with the source's initial register values (`Register::new`:
`nrx1 = 0x40` for the square channels) and clocks; the sample rate is
the host's and does not enter `set_byte`. -/
def Apu.new : Apu :=
  { control := { nrx0 := 0, nrx1 := 0, nrx2 := 0, nrx3 := 0, nrx4 := 0 },
    clock := Clock.new (4194304 / 512),
    frame_sequencer_step := 0,
    channel1 := { register := { nrx0 := 0, nrx1 := 0x40, nrx2 := 0, nrx3 := 0, nrx4 := 0 },
                  clock := Clock.new 8192,
                  length_counter := { n := 0 },
                  volume_envelope := { volume := 0, clock := Clock.new 8 },
                  frequency_sweep := { clock := Clock.new 8, enable := false,
                                       shadow := 0, new_frequency := 0 },
                  index := 1 },
    channel2 := { register := { nrx0 := 0, nrx1 := 0x40, nrx2 := 0, nrx3 := 0, nrx4 := 0 },
                  clock := Clock.new 8192,
                  length_counter := { n := 0 },
                  volume_envelope := { volume := 0, clock := Clock.new 8 },
                  frequency_sweep := { clock := Clock.new 8, enable := false,
                                       shadow := 0, new_frequency := 0 },
                  index := 1 },
    channel3 := { register := { nrx0 := 0, nrx1 := 0, nrx2 := 0, nrx3 := 0, nrx4 := 0 },
                  length_counter := { n := 0 },
                  clock := Clock.new 8192,
                  wave_ram := fun _ => 0,
                  wave_index := 0 },
    channel4 := { register := { nrx0 := 0, nrx1 := 0, nrx2 := 0, nrx3 := 0, nrx4 := 0 },
                  length_counter := { n := 0 },
                  volume_envelope := { volume := 0, clock := Clock.new 8 },
                  clock := Clock.new 4096,
                  lfsr := 1 } }


/-! ## PPU (src/ppu/mod.rs, src/ppu/lcd.rs, src/ppu/attribute.rs)

Byte arrays (`vram`, `oam`, palette memory, the framebuffer) are
functions; reads of `u8` cells reduce with `% 256` where the stored type
is `u8`.  Out-of-bounds indexing and the `assert` calls of `set_rgb`
abort (`none`). -/

/-- `CartridgeMode` (cartridges/mod.rs lines 18-22). -/
inductive CartridgeMode
  | gb
  | gbc
deriving DecidableEq, Repr

/-- `LCDControl` (lcd.rs lines 30-33). -/
structure LCDControl where
  data : Nat
deriving DecidableEq, Repr

/-- `LCDControl::has_bit7` .. `has_bit0` (lcd.rs lines 40-70). -/
def LCDControl.has_bit7 (lc : LCDControl) : Bool := lc.data &&& 0x80 ≠ 0

def LCDControl.has_bit6 (lc : LCDControl) : Bool := lc.data &&& 0x40 ≠ 0

def LCDControl.has_bit5 (lc : LCDControl) : Bool := lc.data &&& 0x20 ≠ 0

def LCDControl.has_bit4 (lc : LCDControl) : Bool := lc.data &&& 0x10 ≠ 0

def LCDControl.has_bit3 (lc : LCDControl) : Bool := lc.data &&& 0x08 ≠ 0

def LCDControl.has_bit2 (lc : LCDControl) : Bool := lc.data &&& 0x04 ≠ 0

def LCDControl.has_bit1 (lc : LCDControl) : Bool := lc.data &&& 0x02 ≠ 0

def LCDControl.has_bit0 (lc : LCDControl) : Bool := lc.data &&& 0x01 ≠ 0

/-- `LCDStatus` (lcd.rs lines 107-124). -/
structure LCDStatus where
  lyc_interrupt_enabled : Bool
  m2_oam_interrupt_enabled : Bool
  m1_vblank_interrupt_enabled : Bool
  m0_hblank_interrupt_enabled : Bool
  mode : Nat
deriving DecidableEq, Repr

/-- `BGPI` (lcd.rs lines 146-149), the auto-incrementing 6-bit palette
index register (used for both `bgpi` and `obpi`). -/
structure BGPI where
  index : Nat
  auto_increment : Bool
deriving DecidableEq, Repr

/-- `BGPI::get` (lcd.rs lines 159-162). -/
def BGPI.get (b : BGPI) : Nat :=
  (if b.auto_increment then 0x80 else 0x00) ||| b.index

/-- `BGPI::set` (lcd.rs lines 164-167). -/
def BGPI.set (_b : BGPI) (value : Nat) : BGPI :=
  { auto_increment := value &&& 0x80 ≠ 0, index := value &&& 0x3F }

/-- `Attribute` (attribute.rs lines 10-17). -/
structure Attribute where
  priority : Bool
  y_flip : Bool
  x_flip : Bool
  palette_number : Nat
  vram_bank : Bool
  cgb_palette_number : Nat
deriving DecidableEq, Repr

/-- `From<u8> for Attribute` (attribute.rs lines 19-30).  Note
`palette_number: value as usize & (1 << 4)` — the source keeps the raw
bit 4 mask (`0` or `16`), not a `0`/`1` flag. -/
def Attribute.of_byte (value : Nat) : Attribute :=
  { priority := value &&& 0x80 ≠ 0,
    y_flip := value &&& 0x40 ≠ 0,
    x_flip := value &&& 0x20 ≠ 0,
    palette_number := value &&& 0x10,
    vram_bank := value &&& 0x08 ≠ 0,
    cgb_palette_number := value &&& 0x07 }

/-- CGB palette memory, `[[[u8; 3]; 4]; 8]` as a function
`palette → color → channel → byte`. -/
def PalData : Type := Nat → Nat → Nat → Nat

/-- The `0xFF69`/`0xFF6B` write arms of `<PPU as Memory>::set_byte`
(ppu/mod.rs lines 662-677 and 681-696), acting on one palette memory at
index `idx`. -/
def pal_write (dat : PalData) (idx value : Nat) : PalData :=
  let r := idx >>> 3
  let c := (idx >>> 1) &&& 0x03
  if idx &&& 0x01 = 0 then
    fun r2 c2 k =>
      if r2 = r ∧ c2 = c ∧ k = 0 then value &&& 0x1F
      else if r2 = r ∧ c2 = c ∧ k = 1 then
        ((dat r c 1 % 256) &&& 0x18) ||| ((value % 256) >>> 5)
      else dat r2 c2 k
  else
    fun r2 c2 k =>
      if r2 = r ∧ c2 = c ∧ k = 1 then
        ((dat r c 1 % 256) &&& 0x07) ||| ((value &&& 0x03) <<< 3)
      else if r2 = r ∧ c2 = c ∧ k = 2 then ((value % 256) >>> 2) &&& 0x1F
      else dat r2 c2 k

/-- The `0xFF69`/`0xFF6B` read arms of `<PPU as Memory>::get_byte`
(ppu/mod.rs lines 581-593 and 597-609); the `<< 5` / `<< 2` shifts are
`u8` shifts, hence the `% 256`. -/
def pal_read (dat : PalData) (idx : Nat) : Nat :=
  let r := idx >>> 3
  let c := (idx >>> 1) &&& 0x03
  if idx &&& 0x01 = 0 then
    (dat r c 0 % 256) ||| (((dat r c 1 % 256) <<< 5) % 256)
  else
    ((dat r c 1 % 256) >>> 3) ||| (((dat r c 2 % 256) <<< 2) % 256)

/-- `PPU` (ppu/mod.rs lines 15-150) — the full register/memory state;
the framebuffer `data` is `row → column → (r, g, b)`. -/
structure Ppu where
  data : Nat → Nat → Nat × Nat × Nat
  mode : CartridgeMode
  interrupt : Nat
  vblank : Bool
  hblank : Bool
  lcd_control : LCDControl
  lcd_status : LCDStatus
  scroll_y : Nat
  scroll_x : Nat
  lcdc_y : Nat
  ly_compare : Nat
  window_y : Nat
  window_x : Nat
  bg_palette : Nat
  object_pallete_0 : Nat
  object_pallete_1 : Nat
  bgpi : BGPI
  bgp_data : PalData
  obpi : BGPI
  obp_data : PalData
  vram : Nat → Nat
  vram_bank : Nat
  oam : Nat → Nat
  priorities : Nat → Bool × Nat
  dots : Nat

/-- `PPU::new` (ppu/mod.rs lines 153-181). -/
def Ppu.new (mode : CartridgeMode) : Ppu :=
  { data := fun _ _ => (0xFF, 0xFF, 0xFF),
    mode := mode,
    interrupt := 0,
    vblank := false,
    hblank := false,
    lcd_control := { data := 0x48 },
    lcd_status := { lyc_interrupt_enabled := false, m2_oam_interrupt_enabled := false,
                    m1_vblank_interrupt_enabled := false, m0_hblank_interrupt_enabled := false,
                    mode := 0 },
    scroll_y := 0, scroll_x := 0, lcdc_y := 0, ly_compare := 0,
    window_y := 0, window_x := 0,
    bg_palette := 0, object_pallete_0 := 0, object_pallete_1 := 1,
    bgpi := { index := 0, auto_increment := false },
    bgp_data := fun _ _ _ => 0,
    obpi := { index := 0, auto_increment := false },
    obp_data := fun _ _ _ => 0,
    vram := fun _ => 0,
    vram_bank := 0,
    oam := fun _ => 0,
    priorities := fun _ => (true, 0),
    dots := 0 }

/-- `PPU::get_vram` (ppu/mod.rs lines 247-253): bank 0 reads
`vram[addr - 0x8000]`, bank 1 reads `vram[addr - 0x6000]`, with the
`[u8; 0x4000]` bounds check. -/
def Ppu.get_vram (p : Ppu) (num addr : Nat) : Option Nat :=
  if num = 0 then
    if 0x8000 ≤ addr ∧ addr - 0x8000 < 0x4000 then some (p.vram (addr - 0x8000) % 256) else none
  else if num = 1 then
    if 0x6000 ≤ addr ∧ addr - 0x6000 < 0x4000 then some (p.vram (addr - 0x6000) % 256) else none
  else none

/-- `PPU::get_gray_shade` (ppu/mod.rs lines 265-272). -/
def Ppu.get_gray_shade (_p : Ppu) (value i : Nat) : Nat :=
  if (value >>> (2 * i)) &&& 0x03 = 0 then 0xFF
  else if (value >>> (2 * i)) &&& 0x03 = 1 then 0xC0
  else if (value >>> (2 * i)) &&& 0x03 = 2 then 0x60
  else 0x00

/-- `PPU::set_rgb` (ppu/mod.rs lines 282-293).  The three `assert` calls
and the `[[_; 160]; 144]` indexing abort on failure; note the write goes
to row `self.ly_compare`, column `index`. -/
def Ppu.set_rgb (p : Ppu) (index r g b : Nat) : Option Ppu :=
  if r ≤ 0x1F ∧ g ≤ 0x1F ∧ b ≤ 0x1F ∧ p.ly_compare < 144 ∧ index < 160 then
    let lr := ((r * 13 + g * 2 + b) >>> 1) % 256
    let lg := ((g * 3 + b) <<< 1) % 256
    let lb := ((r * 3 + g * 2 + b * 11) >>> 1) % 256
    some { p with data := fun row col =>
            if row = p.ly_compare ∧ col = index then (lr, lg, lb) else p.data row col }
  else none

/-- `PPU::set_greyscale` (ppu/mod.rs lines 295-297); the write goes to
row `self.ly_compare`, column `index` (array indexing aborts rows
`≥ 144`). -/
def Ppu.set_greyscale (p : Ppu) (index g : Nat) : Option Ppu :=
  if p.ly_compare < 144 ∧ index < 160 then
    some { p with data := fun row col =>
            if row = p.ly_compare ∧ col = index then (g % 256, g % 256, g % 256) else p.data row col }
  else none

/-- One iteration (column `x`) of the `PPU::draw_background` pixel loop
(ppu/mod.rs lines 314-383). -/
def Ppu.draw_background_pixel (p : Ppu) (show_window : Bool) (tile_base window_x picture_y tile_y x : Nat) :
    Option Ppu := do
  let picture_x := if show_window ∧ window_x ≤ x then x - window_x
                   else (p.scroll_x + x) % 256
  let tile_x := (picture_x >>> 3) &&& 31
  let background_base_addr :=
    if show_window ∧ window_x ≤ x then (if p.lcd_control.has_bit6 then 0x9C00 else 0x9800)
    else if p.lcd_control.has_bit3 then 0x9C00
    else 0x9800
  let tile_addr := background_base_addr + tile_y * 32 + tile_x
  let tile_number ← p.get_vram 0 tile_addr
  let tile_offset :=
    (if p.lcd_control.has_bit4 then tile_number
     else if tile_number < 128 then tile_number + 128
     else tile_number - 128) * 16
  let tile_location := tile_base + tile_offset
  let attr_byte ← p.get_vram 1 tile_addr
  let tile_attribute := Attribute.of_byte attr_byte
  let tile_row := if tile_attribute.y_flip then 7 - picture_y % 8 else picture_y % 8
  let bank := if p.mode = CartridgeMode.gbc ∧ tile_attribute.vram_bank then 1 else 0
  let a ← p.get_vram bank (tile_location + tile_row * 2)
  let b ← p.get_vram bank (tile_location + tile_row * 2 + 1)
  let tile_col := if tile_attribute.x_flip then 7 - picture_x % 8 else picture_x % 8
  let color_low := if a &&& (0x80 >>> tile_col) ≠ 0 then 1 else 0
  let color_high := if b &&& (0x80 >>> tile_col) ≠ 0 then 2 else 0
  let color := color_high ||| color_low
  let p := { p with priorities := fun i =>
              if i = x then (tile_attribute.priority, color) else p.priorities i }
  if p.mode = CartridgeMode.gbc then
    let r := p.bgp_data tile_attribute.cgb_palette_number color 0
    let g := p.bgp_data tile_attribute.cgb_palette_number color 1
    let b := p.bgp_data tile_attribute.cgb_palette_number color 2
    p.set_rgb x r g b
  else
    p.set_greyscale x (p.get_gray_shade p.bg_palette color)

/-- `PPU::draw_background` (ppu/mod.rs lines 299-384). -/
def Ppu.draw_background (p : Ppu) : Option Ppu :=
  let show_window := p.lcd_control.has_bit5 ∧ p.window_y ≤ p.lcdc_y
  let tile_base := if p.lcd_control.has_bit4 then 0x8000 else 0x8800
  let window_x := (p.window_x + 256 - 7) % 256
  let picture_y := if show_window then (p.lcdc_y + 256 - p.window_y) % 256
                   else (p.scroll_y + p.lcdc_y) % 256
  let tile_y := (picture_y >>> 3) &&& 31
  (List.range 160).foldlM
    (fun p x => p.draw_background_pixel show_window tile_base window_x picture_y tile_y x) p

/-- One column `x` of the `PPU::draw_sprites` inner loop
(ppu/mod.rs lines 469-515). -/
def Ppu.draw_sprite_pixel (p : Ppu) (tile_attribute : Attribute) (picture_x d0 d1 x : Nat) :
    Option Ppu :=
  if (picture_x + x) % 256 ≥ 160 then some p
  else
    let tile_x := if tile_attribute.x_flip then 7 - x else x
    let color_low := if d0 &&& (0x80 >>> tile_x) ≠ 0 then 1 else 0
    let color_high := if d1 &&& (0x80 >>> tile_x) ≠ 0 then 2 else 0
    let color := color_high ||| color_low
    if color = 0 then some p
    else
      let priority := p.priorities ((picture_x + x) % 256)
      let skip :=
        if p.mode = CartridgeMode.gbc ∧ ¬ p.lcd_control.has_bit0 then priority.2 = 0
        else if priority.1 then priority.2 ≠ 0
        else tile_attribute.priority ∧ priority.2 ≠ 0
      if skip then some p
      else if p.mode = CartridgeMode.gbc then
        -- Source (ppu/mod.rs lines 503-505): the sprite color indexes
        -- `bgp_data`, the background palette memory.
        let r := p.bgp_data tile_attribute.cgb_palette_number color 0
        let g := p.bgp_data tile_attribute.cgb_palette_number color 1
        let b := p.bgp_data tile_attribute.cgb_palette_number color 2
        p.set_rgb ((picture_x + x) % 256) r g b
      else
        let color2 := if tile_attribute.palette_number = 1
                      then p.get_gray_shade p.object_pallete_1 color
                      else p.get_gray_shade p.object_pallete_0 color
        p.set_greyscale ((picture_x + x) % 256) color2

/-- Lines 448-515 of `PPU::draw_sprites`: the x-range guard, tile-row
fetch and the 8-column loop, common to both Y-visibility branches of the
entry loop. -/
def Ppu.draw_sprite_body (p : Ppu) (tile_attribute : Attribute)
    (sprite_size picture_y picture_x tile_number : Nat) : Option Ppu := do
  if picture_x ≥ 160 ∧ picture_x ≤ 0xFF - 7 then
    some p
  else
    let tile_y := if tile_attribute.y_flip
                  then sprite_size - 1 - ((p.lcdc_y + 256 - picture_y) % 256)
                  else (p.lcdc_y + 256 - picture_y) % 256
    let tile_y_addr := 0x8000 + tile_number * 16 + tile_y * 2
    let bank := if p.mode = CartridgeMode.gbc ∧ tile_attribute.vram_bank then 1 else 0
    let d0 ← p.get_vram bank tile_y_addr
    let d1 ← p.get_vram bank (tile_y_addr + 1)
    (List.range 8).foldlM
      (fun p x => p.draw_sprite_pixel tile_attribute picture_x d0 d1 x) p

/-- One OAM entry `i` of the `PPU::draw_sprites` outer loop
(ppu/mod.rs lines 426-516). -/
def Ppu.draw_sprite_entry (p : Ppu) (sprite_size i : Nat) : Option Ppu :=
  let sprite_addr := 0xFE00 + i * 4
  let picture_y := (p.oam (sprite_addr - 0xFE00) % 256 + 256 - 16) % 256
  let picture_x := (p.oam (sprite_addr + 1 - 0xFE00) % 256 + 256 - 8) % 256
  let tile_number := (p.oam (sprite_addr + 2 - 0xFE00) % 256) &&&
                     (if p.lcd_control.has_bit2 then 0xFE else 0xFF)
  let tile_attribute := Attribute.of_byte (p.oam (sprite_addr + 3 - 0xFE00) % 256)
  if picture_y ≤ 0xFF - sprite_size + 1 then
    if p.lcdc_y < picture_y ∨ p.lcdc_y > picture_y + sprite_size - 1 then
      some p
    else
      p.draw_sprite_body tile_attribute sprite_size picture_y picture_x tile_number
  else
    if p.lcdc_y > (picture_y + sprite_size) % 256 - 1 then
      some p
    else if picture_x ≥ 160 ∧ picture_x ≤ 0xFF - 7 then
      some p
    else
      p.draw_sprite_body tile_attribute sprite_size picture_y picture_x tile_number

/-- `PPU::draw_sprites` (ppu/mod.rs lines 423-517). -/
def Ppu.draw_sprites (p : Ppu) : Option Ppu :=
  let sprite_size := if p.lcd_control.has_bit2 then 16 else 8
  (List.range 40).foldlM (fun p i => p.draw_sprite_entry sprite_size i) p

/-- The mode-1 (V-Blank) entry of `PPU::run_cycles`
(ppu/mod.rs lines 206-215). -/
def Ppu.enter_vblank (p : Ppu) : Option Ppu :=
  if p.lcd_status.mode = 1 then some p
  else
    let p := { p with lcd_status := { p.lcd_status with mode := 1 }, vblank := true }
    let p := { p with interrupt := p.interrupt ||| 0x01 }
    if p.lcd_status.m1_vblank_interrupt_enabled then
      some { p with interrupt := p.interrupt ||| 0x02 }
    else some p

/-- The mode-2 (OAM scan) entry of `PPU::run_cycles`
(ppu/mod.rs lines 216-223). -/
def Ppu.enter_mode2 (p : Ppu) : Option Ppu :=
  if p.lcd_status.mode = 2 then some p
  else
    let p := { p with lcd_status := { p.lcd_status with mode := 2 } }
    if p.lcd_status.m2_oam_interrupt_enabled then
      some { p with interrupt := p.interrupt ||| 0x02 }
    else some p

/-- The mode-0 (H-Blank) entry of `PPU::run_cycles`
(ppu/mod.rs lines 226-242), rendering the scanline on the
mode-3 → mode-0 transition. -/
def Ppu.enter_mode0 (p : Ppu) : Option Ppu :=
  if p.lcd_status.mode = 0 then some p
  else
    let p := { p with lcd_status := { p.lcd_status with mode := 0 }, hblank := true }
    let p := if p.lcd_status.m0_hblank_interrupt_enabled then
               { p with interrupt := p.interrupt ||| 0x02 }
             else p
    let rendered : Option Ppu :=
      if p.mode = CartridgeMode.gbc ∨ p.lcd_control.has_bit0
      then p.draw_background else some p
    rendered.bind
      (fun p => if p.lcd_control.has_bit1 then p.draw_sprites else some p)

/-- One 80-dot chunk of `PPU::run_cycles` (ppu/mod.rs lines 192-243):
advance `dots`, wrap the scanline (comparing LY to LYC on a change),
then enter the mode for the new position. -/
def Ppu.run_cycles_chunk (p : Ppu) (add : Nat) : Option Ppu :=
  let p := { p with dots := p.dots + add }
  let d := p.dots
  let p := { p with dots := p.dots % 456 }
  let p : Ppu :=
    if d ≠ p.dots then
      let p := { p with lcdc_y := (p.lcdc_y + 1) % 154 }
      if p.lcd_status.lyc_interrupt_enabled ∧ p.lcdc_y = p.ly_compare then
        { p with interrupt := p.interrupt ||| 0x02 }
      else p
    else p
  if 144 ≤ p.lcdc_y then p.enter_vblank
  else if p.dots ≤ 80 then p.enter_mode2
  else if p.dots ≤ 80 + 172 then
    some { p with lcd_status := { p.lcd_status with mode := 3 } }
  else p.enter_mode0

/-- `PPU::run_cycles` (ppu/mod.rs lines 183-244). -/
def Ppu.run_cycles (p : Ppu) (cycles : Nat) : Option Ppu :=
  if ¬ p.lcd_control.has_bit7 then some p
  else
    let p := { p with hblank := false }
    if cycles = 0 then some p
    else
      let c := (cycles - 1) / 80 + 1
      (List.range c).foldlM
        (fun p i => p.run_cycles_chunk (if i = c - 1 then cycles % 80 else 80)) p

/-- The `0xFF68` write arm of `<PPU as Memory>::set_byte`
(ppu/mod.rs line 660). -/
def Ppu.write_bgpi (p : Ppu) (value : Nat) : Ppu :=
  { p with bgpi := p.bgpi.set value }

/-- The `0xFF69` write arm of `<PPU as Memory>::set_byte`
(ppu/mod.rs lines 662-677): write palette memory at `bgpi.index`, then
auto-increment the index modulo `0x40` when enabled. -/
def Ppu.write_bgp_data (p : Ppu) (value : Nat) : Ppu :=
  let p := { p with bgp_data := pal_write p.bgp_data p.bgpi.index value }
  if p.bgpi.auto_increment then
    { p with bgpi := { index := (p.bgpi.index + 1) &&& 0x3F, auto_increment := true } }
  else p

/-- The `0xFF6A` write arm (ppu/mod.rs line 679). -/
def Ppu.write_obpi (p : Ppu) (value : Nat) : Ppu :=
  { p with obpi := p.obpi.set value }

/-- The `0xFF6B` write arm (ppu/mod.rs lines 681-696). -/
def Ppu.write_obp_data (p : Ppu) (value : Nat) : Ppu :=
  let p := { p with obp_data := pal_write p.obp_data p.obpi.index value }
  if p.obpi.auto_increment then
    { p with obpi := { index := (p.obpi.index + 1) &&& 0x3F, auto_increment := true } }
  else p

/-- `<PPU as Memory>::set_byte` (ppu/mod.rs lines 614-699); unmatched
addresses hit the panic arm (`none`). -/
def Ppu.set_byte (p : Ppu) (addr value : Nat) : Option Ppu :=
  if 0x8000 ≤ addr ∧ addr ≤ 0x9FFF then
    let idx := p.vram_bank * 0x2000 + addr - 0x8000
    if idx < 0x4000 then
      some { p with vram := fun i => if i = idx then value else p.vram i }
    else none
  else if 0xFE00 ≤ addr ∧ addr ≤ 0xFE9F then
    some { p with oam := fun i => if i = addr - 0xFE00 then value else p.oam i }
  else if addr = 0xFF40 then
    let p := { p with lcd_control := { data := value } }
    if ¬ p.lcd_control.has_bit7 then
      some { p with dots := 0, lcdc_y := 0,
                    lcd_status := { p.lcd_status with mode := 0 },
                    data := fun _ _ => (0xFF, 0xFF, 0xFF),
                    vblank := true }
    else some p
  else if addr = 0xFF41 then
    some { p with lcd_status :=
            { p.lcd_status with
              lyc_interrupt_enabled := value &&& 0x40 ≠ 0,
              m2_oam_interrupt_enabled := value &&& 0x20 ≠ 0,
              m1_vblank_interrupt_enabled := value &&& 0x10 ≠ 0,
              m0_hblank_interrupt_enabled := value &&& 0x08 ≠ 0 } }
  else if addr = 0xFF42 then some { p with scroll_y := value }
  else if addr = 0xFF43 then some { p with scroll_x := value }
  else if addr = 0xFF44 then some p
  else if addr = 0xFF45 then some { p with ly_compare := value }
  else if addr = 0xFF47 then some { p with bg_palette := value }
  else if addr = 0xFF48 then some { p with object_pallete_0 := value }
  else if addr = 0xFF49 then some { p with object_pallete_1 := value }
  else if addr = 0xFF4A then some { p with window_y := value }
  else if addr = 0xFF4B then some { p with window_x := value }
  else if addr = 0xFF4F then some { p with vram_bank := value &&& 0x01 }
  else if addr = 0xFF68 then some (p.write_bgpi value)
  else if addr = 0xFF69 then some (p.write_bgp_data value)
  else if addr = 0xFF6A then some (p.write_obpi value)
  else if addr = 0xFF6B then some (p.write_obp_data value)
  else none

/-- `<PPU as Memory>::get_byte` (ppu/mod.rs lines 521-612). -/
def Ppu.get_byte (p : Ppu) (addr : Nat) : Option Nat :=
  if 0x8000 ≤ addr ∧ addr ≤ 0x9FFF then
    let idx := p.vram_bank * 0x2000 + addr - 0x8000
    if idx < 0x4000 then some (p.vram idx % 256) else none
  else if 0xFE00 ≤ addr ∧ addr ≤ 0xFE9F then some (p.oam (addr - 0xFE00) % 256)
  else if addr = 0xFF40 then some (p.lcd_control.data % 256)
  else if addr = 0xFF41 then
    some ((if p.lcd_status.lyc_interrupt_enabled then 0x40 else 0) |||
          (if p.lcd_status.m2_oam_interrupt_enabled then 0x20 else 0) |||
          (if p.lcd_status.m1_vblank_interrupt_enabled then 0x10 else 0) |||
          (if p.lcd_status.m0_hblank_interrupt_enabled then 0x08 else 0) |||
          (if p.lcdc_y = p.ly_compare then 0x04 else 0) |||
          p.lcd_status.mode)
  else if addr = 0xFF42 then some (p.scroll_y % 256)
  else if addr = 0xFF43 then some (p.scroll_x % 256)
  else if addr = 0xFF44 then some (p.lcdc_y % 256)
  else if addr = 0xFF45 then some (p.ly_compare % 256)
  else if addr = 0xFF47 then some (p.bg_palette % 256)
  else if addr = 0xFF48 then some (p.object_pallete_0 % 256)
  else if addr = 0xFF49 then some (p.object_pallete_1 % 256)
  else if addr = 0xFF4A then some (p.window_y % 256)
  else if addr = 0xFF4B then some (p.window_x % 256)
  else if addr = 0xFF4F then some (0xFE ||| p.vram_bank)
  else if addr = 0xFF68 then some p.bgpi.get
  else if addr = 0xFF69 then some (pal_read p.bgp_data p.bgpi.index)
  else if addr = 0xFF6A then some p.obpi.get
  else if addr = 0xFF6B then some (pal_read p.obp_data p.obpi.index)
  else none


/-! ## Concrete states and derived pipelines used by the claims -/

/-- A CPU at the post-boot entry point, the bus all zero: `PC = 0x0100`
points at byte `0x00` (NOP). -/
def cpu_nop : CpuState :=
  { registers := Registers.new, mem := fun _ => 0,
    halted := false, stopped := false, ei := false }

/-- A CPU after `JP 0x0000` with `SP = 0x0000` (claim C9's boundary
state), bus all zero. -/
def cpu_wrap_sp : CpuState :=
  { registers := { Registers.new with pc := 0, sp := 0 }, mem := fun _ => 0,
    halted := false, stopped := false, ei := false }

/-- A CPU with `PC = 0xFFFF`, about to increment past the address-space
top. -/
def cpu_wrap_pc : CpuState :=
  { registers := { Registers.new with pc := 0xFFFF }, mem := fun _ => 0,
    halted := false, stopped := false, ei := false }

/-- Claim C5's register writes, in order: `TMA = 0xFD`, `TIMA = 0xFE`,
`TAC = 0x05` on a fresh timer. -/
def timer5 : Option Timer :=
  (Timer.new.set_byte 0xFF06 0xFD).bind (fun t =>
    (t.set_byte 0xFF05 0xFE).bind (fun t =>
      t.set_byte 0xFF07 0x05))

/-- The C5 scenario after `cycles` master cycles. -/
def timer5_run (cycles : Nat) : Option Timer :=
  timer5.map (fun t => t.run_cycles cycles)

/-- An enabled, clean-clock timer used to instantiate the general part
of claim C5: `TIMA = 0xFE`, `TMA = 0xFD`, `TAC = 0x05`, period-16 clock. -/
def timer5_witness_state : Timer :=
  { registers := { div := 0, tima := 0xFE, tma := 0xFD, tac := 0x05 },
    div_clock := Clock.new 256,
    tma_clock := Clock.new 16,
    interrupt := 0 }

/-- Spec-modelled TIMA evolution: `n` increments, each overflow
reloading from `tma`; the flag records whether any overflow happened
("each overflow raises Timer in IF"). -/
def tima_increments (tima tma : Nat) : Nat → Nat × Bool
  | 0 => (tima, false)
  | n + 1 =>
    let (t, f) := tima_increments tima tma n
    if t = 255 then (tma, true) else (t + 1, f)

/-- The DMG PPU state of claim C2's failing input: `LCDC = 0x91`
(LCD on, background on, window and sprites off, 0x8000 tiles, 0x9800
map), `BGP = 0x01` (color 0 → shade `0xC0`), all VRAM zero, scanline
counter `LY = 0`, compare register `LYC = 1`, entering the chunk in
mode 0 with `dots = 0`. -/
def ppu2 : Ppu :=
  { Ppu.new CartridgeMode.gb with
      lcd_control := { data := 0x91 },
      ly_compare := 1,
      bg_palette := 0x01 }

/-- The CGB PPU state of claim C4's failing input: sprite 0 at screen
origin (`Y = 16`, `X = 8`), tile 0, attribute `0x01` (CGB palette 1),
tile row 0 holding color-index 1 in every column, CGB BG palette 1
color 1 = (10, 11, 12) and CGB OBJ palette 1 color 1 = (1, 2, 3). -/
def ppu4 : Ppu :=
  { Ppu.new CartridgeMode.gbc with
      lcd_control := { data := 0x93 },
      oam := fun i => if i = 0 then 16 else if i = 1 then 8 else if i = 3 then 0x01 else 0,
      vram := fun i => if i = 0 then 0xFF else 0,
      bgp_data := fun pal col k =>
        if pal = 1 ∧ col = 1 then (if k = 0 then 10 else if k = 1 then 11 else 12) else 0,
      obp_data := fun pal col k =>
        if pal = 1 ∧ col = 1 then (if k = 0 then 1 else if k = 1 then 2 else 3) else 0 }

/-- The 5-bit-RGB → 8-bit conversion `set_rgb` applies
(ppu/mod.rs lines 289-291). -/
def set_rgb_color (r g b : Nat) : Nat × Nat × Nat :=
  (((r * 13 + g * 2 + b) >>> 1) % 256, ((g * 3 + b) <<< 1) % 256,
   ((r * 3 + g * 2 + b * 11) >>> 1) % 256)

/-- Claim C10's write phase: write `0x80` to `0xFF68` (index 0,
auto-increment on), then the byte stream to `0xFF69`. -/
def Ppu.palette_write_stream (p : Ppu) (stream : List Nat) : Option Ppu :=
  (p.set_byte 0xFF68 0x80).bind (fun q =>
    stream.foldlM (fun r v => r.set_byte 0xFF69 v) q)

/-- Claim C10's read phase: for `n` sequential indices starting at `i`,
set the index via `0xFF68`, read `0xFF69`. -/
def Ppu.palette_read_loop : Ppu → Nat → Nat → Option (List Nat)
  | _, _, 0 => some []
  | p, i, n + 1 =>
    (p.set_byte 0xFF68 i).bind (fun q =>
      (q.get_byte 0xFF69).bind (fun v =>
        (q.palette_read_loop (i + 1) n).map (fun rest => v :: rest)))

/-- Claim C10's full pipeline: write the stream, then read back at
indices `0..stream.length`. -/
def Ppu.palette_roundtrip (p : Ppu) (stream : List Nat) : Option (List Nat) :=
  (p.palette_write_stream stream).bind (fun q =>
    q.palette_read_loop 0 stream.length)

/-- What one palette byte survives as: byte `idx` of a color is fully
stored when `idx` is even, while bit 7 is dropped when `idx` is odd
(the high byte of a 15-bit color has only 7 significant bits). -/
def pal_mask_val (idx b : Nat) : Nat :=
  if idx &&& 1 = 1 then b &&& 0x7F else b

/-- `pal_mask_val` applied along a stream starting at index `i`. -/
def mask_odd : Nat → List Nat → List Nat
  | _, [] => []
  | i, b :: tl => pal_mask_val i b :: mask_odd (i + 1) tl

/-- The pure data-level effect of writing a stream at consecutive
indices starting at `i`. -/
def pal_write_seq (dat : PalData) (i : Nat) : List Nat → PalData
  | [] => dat
  | b :: tl => pal_write_seq (pal_write dat i b) (i + 1) tl

/-- The pure state-level write fold (`set_byte 0xFF69` is total). -/
def Ppu.write69_all (p : Ppu) (stream : List Nat) : Ppu :=
  stream.foldl Ppu.write_bgp_data p


/-! ## Bit-arithmetic toolbox -/

theorem and_f0_mod16 (x : Nat) : (x &&& 0xF0) % 16 = 0 := by
  have h16 : (16 : Nat) = 2 ^ 4 := by norm_num
  rw [h16, ← Nat.and_pow_two_sub_one_eq_mod, Nat.and_assoc]
  have : (0xF0 &&& (2 ^ 4 - 1) : Nat) = 0 := by decide
  rw [this, Nat.and_zero]

theorem lor_mod16_zero (x y : Nat) (hx : x % 16 = 0) (hy : y % 16 = 0) :
    (x ||| y) % 16 = 0 := by
  have h16 : (16 : Nat) = 2 ^ 4 := by norm_num
  rw [h16, ← Nat.and_pow_two_sub_one_eq_mod, Nat.and_distrib_right,
    Nat.and_pow_two_sub_one_eq_mod, Nat.and_pow_two_sub_one_eq_mod, ← h16, hx, hy]
  rfl

/-! ## C8 — the flag register's low nibble -/

/-- C8: for every CPU state and every write to F via `set_flag` or to
the AF pair via `set_af`, the low nibble of F is zero afterwards, and
reading AF always returns a value whose low nibble is zero. -/
theorem c8_flag_low_nibble :
    (∀ (r : Registers) (flag : CpuFlag) (s : Bool), (r.set_flag flag s).f % 16 = 0) ∧
    (∀ (r : Registers) (value : Nat), (r.set_af value).f % 16 = 0) ∧
    (∀ (r : Registers), r.af % 16 = 0) := by
  refine ⟨fun r flag s => ?_, fun r value => ?_, fun r => ?_⟩
  · simp only [Registers.set_flag]
    exact and_f0_mod16 _
  · simp only [Registers.set_af]
    exact and_f0_mod16 _
  · simp only [Registers.af]
    refine lor_mod16_zero _ _ ?_ (and_f0_mod16 _)
    rw [Nat.shiftLeft_eq]
    omega

/-! ## C9 — SP and PC wrap modulo 2^16 -/

/-- C9: stack pushes decrement SP by 2 wrapping modulo 2^16 (with
`SP = 0x0000` the push lands the little-endian word at
`0xFFFE`/`0xFFFF`), and the PC increment of an instruction fetch wraps
`0xFFFF → 0x0000`. -/
theorem c9_sp_pc_wrap :
    (∀ (c : CpuState) (value : Nat),
      (c.add_to_stack value).registers.sp = (c.registers.sp + 0x10000 - 2) % 0x10000) ∧
    ((cpu_wrap_sp.add_to_stack 0xABCD).registers.sp = 0xFFFE ∧
     (cpu_wrap_sp.add_to_stack 0xABCD).mem 0xFFFE = 0xCD ∧
     (cpu_wrap_sp.add_to_stack 0xABCD).mem 0xFFFF = 0xAB) ∧
    (∀ (c : CpuState), (c.get_byte_at_pc).2.registers.pc = (c.registers.pc + 1) % 0x10000) ∧
    (cpu_wrap_pc.get_byte_at_pc).2.registers.pc = 0 := by
  refine ⟨fun c value => rfl, ⟨?_, ?_, ?_⟩, fun c => rfl, ?_⟩ <;> decide

/-! ## C3 — the WRAM bank register is not confined to 1..7 -/

/-- C3 (failing input): writing `0x0F` to `0xFF70` sets `wram_bank` to
`15` (not a bank in `1..7`), and the following read of `0xD000`
indexes `wram[0xF000]`, beyond the 32 KiB array — the abort the claim
says is unreachable. -/
theorem c3_wram_bank_unmasked :
    (MmuWram.new.set_wram_bank 0x0F).wram_bank = 15 ∧
    ¬ (1 ≤ (MmuWram.new.set_wram_bank 0x0F).wram_bank ∧
       (MmuWram.new.set_wram_bank 0x0F).wram_bank ≤ 7) ∧
    (MmuWram.new.set_wram_bank 0x0F).get_byte 0xD000 = none := by
  refine ⟨?_, ?_, ?_⟩ <;> decide

/-- C3 companion: the in-range writes the code's own comment promises
(`0x00..0x07`) do select banks 1-7; the defect is only the missing mask
for larger values. -/
theorem c3_small_values_ok (value : Nat) (h : value < 8) :
    1 ≤ (MmuWram.new.set_wram_bank value).wram_bank ∧
    (MmuWram.new.set_wram_bank value).wram_bank ≤ 7 := by
  interval_cases value <;> simp [MmuWram.set_wram_bank, MmuWram.new]

theorem c3_small_values_ok_witness :
    1 ≤ (MmuWram.new.set_wram_bank 0x05).wram_bank ∧
    (MmuWram.new.set_wram_bank 0x05).wram_bank ≤ 7 :=
  c3_small_values_ok 0x05 (by decide)

/-! ## C1 — the CPU step aborts instead of returning the table cycles -/

/-- C1 (failing input): with `PC = 0x0100` pointing at NOP (`0x00`), the
step `CPU::run` does not return 4 master cycles — `CPU::execute` falls
through its opcode match into the `panic` on op_codes.rs line 844 —
although the (dead) `OP_CYCLES` table entry for NOP times 4 is exactly
the 4 master cycles the claim expects. -/
theorem c1_nop_step_aborts :
    cpu_nop.run_result = none ∧ (OP_CYCLES.getD 0x00 0) * 4 = 4 := by
  refine ⟨?_, ?_⟩ <;> decide


/-! ## C5 — timer increments, overflow reload and the TAC-write reload -/

/-- Iterating the TIMA increment step matches the spec-modelled
`tima_increments`, ORing the Timer flag into `interrupt` exactly when an
overflow occurred. -/
theorem tima_step_iterate (t : Timer) (n : Nat)
    (h0 : t.registers.tima < 256) (h1 : t.registers.tma < 256) :
    (Timer.tima_step^[n] t).registers.tima =
      (tima_increments t.registers.tima t.registers.tma n).1 ∧
    (Timer.tima_step^[n] t).interrupt =
      (if (tima_increments t.registers.tima t.registers.tma n).2
       then t.interrupt ||| 0x04 else t.interrupt) ∧
    (Timer.tima_step^[n] t).registers.tima < 256 ∧
    (Timer.tima_step^[n] t).registers.tma = t.registers.tma := by
  induction n with
  | zero =>
    exact ⟨rfl, by simp [tima_increments], h0, rfl⟩
  | succ n ih =>
    obtain ⟨e1, e2, e3, e4⟩ := ih
    rcases hA : tima_increments t.registers.tima t.registers.tma n with ⟨ti, fl⟩
    rw [hA] at e1 e2
    dsimp only at e1 e2
    have hti : ti < 256 := by rw [e1] at e3; exact e3
    rw [Function.iterate_succ_apply']
    simp only [tima_increments, hA]
    by_cases hov : ti = 255
    · have hstep : ((Timer.tima_step^[n] t).registers.tima + 1) % 256 = 0 := by
        rw [e1, hov]
      simp only [Timer.tima_step]
      rw [if_pos hstep, if_pos hov]
      refine ⟨by simp [e4], ?_, by simpa [e4] using h1, by simp [e4]⟩
      cases fl
      · simp only [Bool.false_eq_true, if_false] at e2
        simp [e2]
      · simp only [if_true] at e2
        simp [e2, Nat.or_assoc]
    · have hstep : ((Timer.tima_step^[n] t).registers.tima + 1) % 256 ≠ 0 := by
        rw [e1]
        omega
      simp only [Timer.tima_step]
      rw [if_neg hstep, if_neg hov]
      refine ⟨?_, by simpa using e2, ?_, by simp [e4]⟩
      · simp only [e1]
        omega
      · simp only [e1]
        omega

/-- C5 (counterexample to the literal scenario): after `TMA = 0xFD`,
`TIMA = 0xFE`, `TAC = 0x05` (in that order — the TAC write with a new
period reloads TIMA from TMA, timer.rs lines 122-133), 32 master cycles
produce two increments `0xFD → 0xFE → 0xFF`: no overflow, `TIMA = 0xFF`
and the Timer bit of IF stays clear, not `TIMA = 0xFD` with IF bit 2
set as the claim states. -/
theorem c5_counterexample :
    (timer5_run 32).map (fun t => (t.registers.tima, t.interrupt &&& 0x04)) =
      some (0xFF, 0) ∧
    ¬ ((timer5_run 32).map (fun t => (t.registers.tima, t.interrupt &&& 0x04)) =
        some (0xFD, 0x04)) := by
  refine ⟨?_, ?_⟩ <;> decide

/-- C5 (amended): with TAC bit 2 set and a clean prescaler, running
`cycles` master cycles increments TIMA exactly `cycles / period` times
(period = the `tma_clock` period selected by TAC bits 1-0), each
overflow reloading TIMA from TMA and ORing the Timer bit into the
interrupt field; and in the literal scenario — whose TAC write reloads
TIMA to `0xFD` — the overflow outcome `TIMA = 0xFD`, IF bit 2 set, is
reached after 48 master cycles (three increments), not 32. -/
theorem c5_amended :
    (∀ (t : Timer) (cycles : Nat),
      t.tma_clock.num_cycles = 0 →
      t.registers.tac &&& 0x04 ≠ 0 →
      t.registers.tima < 256 → t.registers.tma < 256 →
      (t.run_cycles cycles).registers.tima =
        (tima_increments t.registers.tima t.registers.tma
          (cycles / t.tma_clock.period)).1 ∧
      (t.run_cycles cycles).interrupt =
        (if (tima_increments t.registers.tima t.registers.tma
              (cycles / t.tma_clock.period)).2
         then t.interrupt ||| 0x04 else t.interrupt)) ∧
    (timer5_run 48).map (fun t => (t.registers.tima, t.interrupt &&& 0x04)) =
      some (0xFD, 0x04) := by
  constructor
  · intro t cycles hclean htac h0 h1
    unfold Timer.run_cycles
    simp only [Clock.run_cycles, htac, hclean, Nat.zero_add, ne_eq, not_false_iff, if_pos]
    have h := tima_step_iterate
      { t with registers := { t.registers with
                  div := (t.registers.div + (t.div_clock.num_cycles + cycles) / t.div_clock.period % 256) % 256 },
               div_clock := { t.div_clock with
                  num_cycles := (t.div_clock.num_cycles + cycles) % t.div_clock.period },
               tma_clock := { t.tma_clock with num_cycles := cycles % t.tma_clock.period } }
      (cycles / t.tma_clock.period) h0 h1
    exact ⟨h.1, h.2.1⟩
  · decide

/-- Witness for the general part of C5 at a concrete enabled timer
(`TIMA = 0xFE`, `TMA = 0xFD`, period 16) over 48 cycles. -/
theorem c5_amended_witness :
    (timer5_witness_state.run_cycles 48).registers.tima =
      (tima_increments timer5_witness_state.registers.tima
        timer5_witness_state.registers.tma
        (48 / timer5_witness_state.tma_clock.period)).1 ∧
    (timer5_witness_state.run_cycles 48).interrupt =
      (if (tima_increments timer5_witness_state.registers.tima
            timer5_witness_state.registers.tma
            (48 / timer5_witness_state.tma_clock.period)).2
       then timer5_witness_state.interrupt ||| 0x04
       else timer5_witness_state.interrupt) :=
  c5_amended.1 timer5_witness_state 48 rfl (by decide) (by decide) (by decide)


/-! ## C6 — cartridge validation -/

theorem sum_add_length_le (bs : List Nat) (h : ∀ b ∈ bs, b < 256) :
    bs.sum + bs.length ≤ 256 * bs.length := by
  induction bs with
  | nil => simp
  | cons b tl ih =>
    have hb : b < 256 := h b (by simp)
    have htl := ih (fun x hx => h x (by simp [hx]))
    simp only [List.sum_cons, List.length_cons]
    ring_nf
    ring_nf at htl
    omega

/-- Closed form of the `wrapping_sub` checksum loop: starting from
`c < 256` over bytes `< 256` it computes `(c - sum - length) mod 256`. -/
theorem checksum_fold_eq (bs : List Nat) (h : ∀ b ∈ bs, b < 256) (c : Nat) (hc : c < 256) :
    checksum_fold c bs = (c + 256 * bs.length - (bs.sum + bs.length)) % 256 := by
  induction bs generalizing c with
  | nil => simp [checksum_fold]; omega
  | cons b tl ih =>
    have hb : b < 256 := h b (by simp)
    have htl : ∀ x ∈ tl, x < 256 := fun x hx => h x (by simp [hx])
    have hsum := sum_add_length_le tl htl
    have hstep : ((c + 256 - b) % 256 + 255) % 256 < 256 := by omega
    show checksum_fold (((c + 256 - b) % 256 + 255) % 256) tl = _
    rw [ih htl _ hstep]
    simp only [List.sum_cons, List.length_cons]
    omega

/-- The byte list the checksum ranges over is bounded for a byte-valued
ROM. -/
theorem rom_get_lt (rom : List Nat) (hb : ∀ b ∈ rom, b < 256) (i : Nat) :
    rom_get rom i < 256 := by
  simp only [rom_get]
  rcases Nat.lt_or_ge i rom.length with hlt | hge
  · rw [List.getD_eq_getElem?_getD, List.getElem?_eq_getElem hlt, Option.getD_some]
    exact hb _ (List.getElem_mem hlt)
  · rw [List.getD_eq_default _ _ hge]
    omega

/-- The byte list the checksum ranges over is bounded for a byte-valued
ROM. -/
theorem header_bytes_lt (rom : List Nat) (hb : ∀ b ∈ rom, b < 256) :
    ∀ x ∈ header_bytes rom, x < 256 := by
  intro x hx
  simp only [header_bytes, List.mem_map] at hx
  obtain ⟨i, _, rfl⟩ := hx
  exact rom_get_lt rom hb _

/-- `verify_header_checksum` in closed form. -/
theorem verify_header_checksum_iff (rom : List Nat) (hb : ∀ b ∈ rom, b < 256) :
    verify_header_checksum rom = true ↔
      rom_get rom 0x014D = code_header_checksum rom := by
  have hlen : (header_bytes rom).length = 0x19 := by
    simp [header_bytes]
  have hbd := header_bytes_lt rom hb
  have hsum := sum_add_length_le (header_bytes rom) hbd
  rw [verify_header_checksum]
  rw [checksum_fold_eq _ hbd 0 (by omega)]
  rw [code_header_checksum, hlen]
  rw [hlen] at hsum
  constructor
  · intro h
    rw [decide_eq_true_iff] at h
    omega
  · intro h
    rw [decide_eq_true_iff]
    omega

/-- `verify_nintendo_logo` in quantified form. -/
theorem verify_nintendo_logo_iff (rom : List Nat) :
    verify_nintendo_logo rom = true ↔ logo_matches rom := by
  simp [verify_nintendo_logo, logo_matches, List.all_eq_true, List.mem_range]

set_option maxRecDepth 8000 in
/-- C6 (counterexample): `rom6` satisfies the claim's acceptance
conditions literally — `0x150` bytes, canonical logo, and the byte at
`0x014D` equal to the claim's formula `(-1 - Σ) mod 256 = 0xFF` — but
`cartridges::new` rejects it: the code requires
`(-(Σ + 0x19)) mod 256 = 0xE7` at `0x014D`. -/
theorem c6_counterexample :
    ¬ (cartridges_new_accepts rom6 false = true ↔
        (0x150 ≤ rom6.length ∧ logo_matches rom6 ∧
         rom_get rom6 0x014D = claim_header_checksum rom6)) := by
  decide

/-- C6 (amended): with checks enabled, `cartridges::new` accepts a
byte-valued ROM exactly when: it has at least `0x150` bytes; its
ROM-size byte is supported and the ROM is no larger than the advertised
maximum; its MBC-type byte is supported (with a supported RAM-size byte
where that type reads it); the canonical logo sits at `0x0104..0x0133`;
and the byte at `0x014D` equals `(-(Σ bytes 0x0134..0x014C + 0x19)) mod
256`. -/
theorem c6_amended (rom : List Nat) (hb : ∀ b ∈ rom, b < 256) :
    cartridges_new_accepts rom false = true ↔
      (0x150 ≤ rom.length ∧
       (∃ m, get_rom_size (rom_get rom 0x0148) = some m ∧ rom.length ≤ m) ∧
       supported_mbc (rom_get rom 0x0147) = true ∧
       (mbc_reads_ram_size (rom_get rom 0x0147) = true →
         get_ram_size (rom_get rom 0x0149) ≠ none) ∧
       logo_matches rom ∧
       rom_get rom 0x014D = code_header_checksum rom) := by
  unfold cartridges_new_accepts
  by_cases hlen : rom.length < 0x150
  · rw [if_pos hlen]
    simp only [Bool.false_eq_true, false_iff]
    intro hcon
    omega
  · rw [if_neg hlen]
    rcases hsz : get_rom_size (rom_get rom 0x0148) with _ | m
    · dsimp only
      simp only [Bool.false_eq_true, false_iff]
      intro hcon
      obtain ⟨m2, hm2, -⟩ := hcon.2.1
      exact Option.noConfusion hm2
    · dsimp only
      by_cases hmax : rom.length > m
      · rw [if_pos hmax]
        simp only [Bool.false_eq_true, false_iff]
        intro hcon
        obtain ⟨-, ⟨m2, hm2, hle⟩, -⟩ := hcon
        cases hm2
        omega
      · rw [if_neg hmax]
        by_cases hmbc : supported_mbc (rom_get rom 0x0147) = true
        · rw [if_neg (not_not_intro hmbc)]
          by_cases hram : mbc_reads_ram_size (rom_get rom 0x0147) = true ∧
              get_ram_size (rom_get rom 0x0149) = none
          · rw [if_pos hram]
            simp only [Bool.false_eq_true, false_iff]
            intro hcon
            exact hcon.2.2.2.1 hram.1 hram.2
          · rw [if_neg hram]
            rw [if_neg (by simp : ¬ (false = true))]
            rw [Bool.and_eq_true, verify_nintendo_logo_iff,
              verify_header_checksum_iff rom hb]
            constructor
            · rintro ⟨hlogo, hcks⟩
              refine ⟨by omega, ⟨m, rfl, by omega⟩, hmbc, ?_, hlogo, hcks⟩
              intro hreads hnone
              exact hram ⟨hreads, hnone⟩
            · rintro ⟨-, -, -, -, hlogo, hcks⟩
              exact ⟨hlogo, hcks⟩
        · rw [if_pos (by simpa using hmbc)]
          simp only [Bool.false_eq_true, false_iff]
          intro hcon
          exact hmbc hcon.2.2.1

set_option maxRecDepth 8000 in
/-- Witness instantiating the amended C6 at the concrete `rom6`. -/
theorem c6_amended_witness :
    cartridges_new_accepts rom6 false = true ↔
      (0x150 ≤ rom6.length ∧
       (∃ m, get_rom_size (rom_get rom6 0x0148) = some m ∧ rom6.length ≤ m) ∧
       supported_mbc (rom_get rom6 0x0147) = true ∧
       (mbc_reads_ram_size (rom_get rom6 0x0147) = true →
         get_ram_size (rom_get rom6 0x0149) ≠ none) ∧
       logo_matches rom6 ∧
       rom_get rom6 0x014D = code_header_checksum rom6) :=
  c6_amended rom6 (by decide)


/-! ## C7 — APU power-off semantics -/

/-- Evaluation of the NR52 power-off write: `nrx2` receives `value`
(bit 7 clear), then every register block is cleared. -/
theorem apu_set_nr52_off (a : Apu) (value : Nat) (hv : value &&& 0x80 = 0) :
    a.set_byte 0xFF26 value = some { a with
      channel1 := { a.channel1 with register := ChannelReg.clear },
      channel2 := { a.channel2 with register := ChannelReg.clear },
      channel3 := { a.channel3 with register := ChannelReg.clear },
      channel4 := { a.channel4 with register := ChannelReg.clear },
      control := ChannelReg.clear } := by
  have hoff : ({ a with control := { a.control with nrx2 := value } } : Apu).get_power_status
      = false := by
    simp [Apu.get_power_status, ChannelReg.get_power_status, hv]
  simp only [Apu.set_byte]
  rw [if_neg (by simp), if_neg (by decide), if_neg (by decide), if_neg (by decide),
    if_neg (by decide), if_neg (by decide), if_neg (by decide)]
  simp [Apu.get_power_status, ChannelReg.get_power_status, hv]

/-- C7: writing a value with bit 7 clear to NR52 (`0xFF26`) clears all
four channel register blocks and the control block — in particular NR50
(`nrx0`) and NR51 (`nrx1`) — while Wave RAM is untouched; and while the
power bit is off, a write to any APU address other than `0xFF26` leaves
the whole APU unchanged. -/
theorem c7_power_off :
    (∀ (a : Apu) (value : Nat), value &&& 0x80 = 0 →
      ∃ a2, a.set_byte 0xFF26 value = some a2 ∧
        a2.channel1.register = ChannelReg.clear ∧
        a2.channel2.register = ChannelReg.clear ∧
        a2.channel3.register = ChannelReg.clear ∧
        a2.channel4.register = ChannelReg.clear ∧
        a2.control.nrx0 = 0 ∧ a2.control.nrx1 = 0 ∧
        a2.channel3.wave_ram = a.channel3.wave_ram) ∧
    (∀ (a : Apu) (addr value : Nat),
      a.get_power_status = false → addr ≠ 0xFF26 →
      a.set_byte addr value = some a) := by
  constructor
  · intro a value hv
    exact ⟨_, apu_set_nr52_off a value hv, rfl, rfl, rfl, rfl, rfl, rfl, rfl⟩
  · intro a addr value hpow hne
    simp only [Apu.set_byte]
    rw [if_pos ⟨hne, hpow⟩]

/-- Witness for C7 at the initial APU (powered off, `NR52 = 0`):
power-off write `0` to NR52 and an ignored write to NR10. -/
theorem c7_power_off_witness :
    (∃ a2, Apu.new.set_byte 0xFF26 0 = some a2 ∧
      a2.channel1.register = ChannelReg.clear ∧
      a2.channel2.register = ChannelReg.clear ∧
      a2.channel3.register = ChannelReg.clear ∧
      a2.channel4.register = ChannelReg.clear ∧
      a2.control.nrx0 = 0 ∧ a2.control.nrx1 = 0 ∧
      a2.channel3.wave_ram = Apu.new.channel3.wave_ram) ∧
    Apu.new.set_byte 0xFF10 0x55 = some Apu.new :=
  ⟨c7_power_off.1 Apu.new 0 (by decide),
   c7_power_off.2 Apu.new 0xFF10 0x55 (by decide) (by decide)⟩


/-! ## C2 — the scanline is rendered into row LYC, not row LY -/

set_option maxRecDepth 100000 in
/-- C2 (failing input): with `LY = 0` and `LYC = 1`, running `ppu2` for
300 dots reaches the mode-3 → mode-0 transition and renders scanline 0 —
but the pixels land in framebuffer row 1 (`ly_compare`), row 0 (`lcdc_y`)
staying white: `set_rgb`/`set_greyscale` index `data[self.ly_compare]`. -/
theorem c2_render_row_is_lyc :
    (ppu2.run_cycles 300).map
        (fun q => (q.lcdc_y, q.ly_compare, q.lcd_status.mode, q.data 0 0, q.data 1 0)) =
      some (0, 1, 0, (0xFF, 0xFF, 0xFF), (0xC0, 0xC0, 0xC0)) := rfl

/-! ## C4 — CGB sprite pixels are colored from the BG palette memory -/

set_option maxRecDepth 100000 in
/-- C4 (failing input): `ppu4`'s sprite 0 is visible at pixel (0, 0)
with CGB palette number 1; `draw_sprites` colors it from
`bgp_data[1][1] = (10, 11, 12)` — the background palette — although the
OBJ palette holds `obp_data[1][1] = (1, 2, 3)`, whose converted color
differs. -/
theorem c4_sprite_uses_bgp :
    (ppu4.draw_sprites).map (fun q => q.data 0 0) = some (set_rgb_color 10 11 12) ∧
    set_rgb_color 10 11 12 ≠ set_rgb_color 1 2 3 :=
  ⟨rfl, by decide⟩


/-! ## C10 — CGB palette auto-increment round trip -/

set_option maxRecDepth 8000 in
/-- C10 (counterexample): writing the stream `[0x00, 0x80]` after
`0x80 → 0xFF68` reads back as `[0x00, 0x00]`: bit 7 of the odd (high)
palette byte is not stored (`(value >> 2) & 0x1F` keeps 5 bits and
`(value & 0x03) << 3` keeps 2), so the written stream is not returned. -/
theorem c10_counterexample :
    Ppu.palette_roundtrip (Ppu.new CartridgeMode.gbc) [0x00, 0x80] = some [0x00, 0x00] ∧
    Ppu.palette_roundtrip (Ppu.new CartridgeMode.gbc) [0x00, 0x80] ≠ some [0x00, 0x80] := by
  exact ⟨rfl, by decide⟩

theorem and_mod_two_pow_lit (x : Nat) :
    x &&& 1 = x % 2 ∧ x &&& 3 = x % 4 ∧ x &&& 7 = x % 8 ∧ x &&& 31 = x % 32 ∧
    x &&& 63 = x % 64 ∧ x &&& 127 = x % 128 := by
  refine ⟨Nat.and_one_is_mod x, ?_, ?_, ?_, ?_, ?_⟩
  · simpa using Nat.and_pow_two_sub_one_eq_mod x 2
  · simpa using Nat.and_pow_two_sub_one_eq_mod x 3
  · simpa using Nat.and_pow_two_sub_one_eq_mod x 5
  · simpa using Nat.and_pow_two_sub_one_eq_mod x 6
  · simpa using Nat.and_pow_two_sub_one_eq_mod x 7

theorem shiftLeft5_mod256 (y : Nat) : ((y % 256) <<< 5) % 256 = y % 8 * 32 := by
  rw [Nat.shiftLeft_eq]
  show (y % 256) * 32 % 256 = y % 8 * 32
  omega

theorem shiftLeft2_mod256 (y : Nat) : ((y % 256) <<< 2) % 256 = y % 64 * 4 := by
  rw [Nat.shiftLeft_eq]
  show (y % 256) * 4 % 256 = y % 64 * 4
  omega

/-- A value below `2^k` or-ed with a `k`-shifted value is their sum. -/
theorem or_shl_eq_add (k A B : Nat) (hA : A < 2 ^ k) :
    A ||| (B <<< k) = 2 ^ k * B + A := by
  rw [Nat.shiftLeft_eq, Nat.or_comm, Nat.mul_comm B (2 ^ k)]
  exact (Nat.mul_add_lt_is_or hA B).symm

/-- Bits `3-4` of a palette `b1` cell do not affect its value mod 8. -/
theorem or_and24_mod8 (x s : Nat) (hs : s < 8) : ((x &&& 24) ||| s) % 8 = s := by
  have h1 : ((x &&& 24) ||| s) &&& 7 = ((x &&& 24) &&& 7) ||| (s &&& 7) :=
    Nat.and_distrib_right _ _ _
  have h24 : (24 &&& 7 : Nat) = 0 := by decide
  rw [← (and_mod_two_pow_lit _).2.2.1, h1, Nat.and_assoc, h24, Nat.and_zero,
    Nat.zero_or, (and_mod_two_pow_lit _).2.2.1, Nat.mod_eq_of_lt hs]

theorem pal_write_even_0 (dat : PalData) (i b : Nat) (hpar : i &&& 1 = 0) :
    pal_write dat i b (i >>> 3) ((i >>> 1) &&& 3) 0 = b &&& 31 := by
  simp [pal_write, hpar]

theorem pal_write_even_1 (dat : PalData) (i b : Nat) (hpar : i &&& 1 = 0) :
    pal_write dat i b (i >>> 3) ((i >>> 1) &&& 3) 1 =
      ((dat (i >>> 3) ((i >>> 1) &&& 3) 1 % 256) &&& 24) ||| ((b % 256) >>> 5) := by
  simp [pal_write, hpar]

theorem pal_write_odd_1 (dat : PalData) (i b : Nat) (hpar : ¬ i &&& 1 = 0) :
    pal_write dat i b (i >>> 3) ((i >>> 1) &&& 3) 1 =
      ((dat (i >>> 3) ((i >>> 1) &&& 3) 1 % 256) &&& 7) ||| ((b &&& 3) <<< 3) := by
  have hpar2 : ¬ i % 2 = 0 := by
    rw [← Nat.and_one_is_mod]
    exact hpar
  simp [pal_write, hpar2]

theorem pal_write_odd_2 (dat : PalData) (i b : Nat) (hpar : ¬ i &&& 1 = 0) :
    pal_write dat i b (i >>> 3) ((i >>> 1) &&& 3) 2 =
      ((b % 256) >>> 2) &&& 31 := by
  have hpar2 : ¬ i % 2 = 0 := by
    rw [← Nat.and_one_is_mod]
    exact hpar
  simp [pal_write, hpar2]

/-- Writing index `i` leaves every other color cell unchanged. -/
theorem pal_write_other (dat : PalData) (i b r2 c2 k : Nat)
    (h : ¬ (r2 = i >>> 3 ∧ c2 = (i >>> 1) &&& 3)) :
    pal_write dat i b r2 c2 k = dat r2 c2 k := by
  simp only [pal_write]
  split <;>
  · dsimp only
    split_ifs with h1 h2
    · exact absurd ⟨h1.1, h1.2.1⟩ h
    · exact absurd ⟨h2.1, h2.2.1⟩ h
    · rfl

/-- Reading index `i` immediately after writing byte `b < 256` there:
even bytes round-trip exactly, odd bytes lose bit 7. -/
theorem pal_read_write_self (dat : PalData) (i b : Nat) (hb : b < 256) :
    pal_read (pal_write dat i b) i = pal_mask_val i b := by
  have hb256 : b % 256 = b := Nat.mod_eq_of_lt hb
  by_cases hpar : i &&& 1 = 0
  · have hmask : pal_mask_val i b = b := by
      have h1 := (and_mod_two_pow_lit i).1
      simp only [pal_mask_val]
      rw [if_neg (by omega)]
    rw [hmask]
    simp only [pal_read]
    rw [if_pos hpar, pal_write_even_0 dat i b hpar, pal_write_even_1 dat i b hpar]
    rw [(and_mod_two_pow_lit b).2.2.2.1, Nat.mod_eq_of_lt (by omega : b % 32 < 256)]
    rw [shiftLeft5_mod256]
    have hs : (b % 256) >>> 5 < 8 := by
      rw [hb256, Nat.shiftRight_eq_div_pow]
      omega
    rw [or_and24_mod8 _ _ hs, hb256, Nat.shiftRight_eq_div_pow]
    have h32 : b / 2 ^ 5 * 32 = (b / 2 ^ 5) <<< 5 := by
      rw [Nat.shiftLeft_eq]
    rw [h32, or_shl_eq_add 5 _ _ (by omega : b % 32 < 2 ^ 5)]
    omega
  · have hpar1 : i &&& 1 = 1 := by
      have := (and_mod_two_pow_lit i).1
      omega
    have hmask : pal_mask_val i b = b % 128 := by
      simp only [pal_mask_val]
      rw [if_pos hpar1, (and_mod_two_pow_lit b).2.2.2.2.2]
    rw [hmask]
    simp only [pal_read]
    rw [if_neg hpar, pal_write_odd_1 dat i b hpar, pal_write_odd_2 dat i b hpar]
    have hx7 : dat (i >>> 3) ((i >>> 1) &&& 3) 1 % 256 &&& 7 < 8 := by
      rw [(and_mod_two_pow_lit _).2.2.1]
      omega
    rw [or_shl_eq_add 3 _ _ hx7, (and_mod_two_pow_lit b).2.1]
    rw [Nat.mod_eq_of_lt (by omega : 2 ^ 3 * (b % 4) +
      (dat (i >>> 3) ((i >>> 1) &&& 3) 1 % 256 &&& 7) < 256)]
    rw [Nat.shiftRight_eq_div_pow]
    have hdiv : (2 ^ 3 * (b % 4) +
        (dat (i >>> 3) ((i >>> 1) &&& 3) 1 % 256 &&& 7)) / 2 ^ 3 = b % 4 := by
      rw [(and_mod_two_pow_lit _).2.2.1] at hx7 ⊢
      omega
    rw [hdiv, hb256, Nat.shiftRight_eq_div_pow,
      (and_mod_two_pow_lit (b / 2 ^ 2)).2.2.2.1, shiftLeft2_mod256]
    have h4 : b / 2 ^ 2 % 32 % 64 * 4 = (b / 2 ^ 2 % 32) <<< 2 := by
      rw [Nat.shiftLeft_eq]
      congr 1
      omega
    rw [h4, or_shl_eq_add 2 _ _ (by omega : b % 4 < 2 ^ 2)]
    omega

/-- `pal_read` only inspects the cell of its index. -/
theorem pal_read_congr (d1 d2 : PalData) (j : Nat)
    (h : ∀ k, d1 (j >>> 3) ((j >>> 1) &&& 3) k = d2 (j >>> 3) ((j >>> 1) &&& 3) k) :
    pal_read d1 j = pal_read d2 j := by
  simp only [pal_read, h]

theorem pal_write_odd_0 (dat : PalData) (i b : Nat) (hpar : ¬ i &&& 1 = 0) :
    pal_write dat i b (i >>> 3) ((i >>> 1) &&& 3) 0 =
      dat (i >>> 3) ((i >>> 1) &&& 3) 0 := by
  have hpar2 : ¬ i % 2 = 0 := by
    rw [← Nat.and_one_is_mod]
    exact hpar
  simp [pal_write, hpar2]

theorem pal_read_even (dat : PalData) (j : Nat) (hpar : j &&& 1 = 0) :
    pal_read dat j = (dat (j >>> 3) ((j >>> 1) &&& 3) 0 % 256) |||
      (((dat (j >>> 3) ((j >>> 1) &&& 3) 1 % 256) <<< 5) % 256) := by
  simp only [pal_read]
  rw [if_pos hpar]

/-- Writing index `i` does not disturb a read at any smaller index `j`:
either the cells are disjoint, or `i` is the odd half of `j`'s color and
the write keeps the low three bits of the shared `b1` cell. -/
theorem pal_read_write_lt (dat : PalData) (i b j : Nat) (hij : j < i) (hi : i < 64) :
    pal_read (pal_write dat i b) j = pal_read dat j := by
  by_cases hcell : j >>> 3 = i >>> 3 ∧ (j >>> 1) &&& 3 = (i >>> 1) &&& 3
  · obtain ⟨hr, hc⟩ := hcell
    have hr' : j / 2 ^ 3 = i / 2 ^ 3 := by
      rw [← Nat.shiftRight_eq_div_pow, ← Nat.shiftRight_eq_div_pow]
      exact hr
    have hc' : j / 2 ^ 1 % 4 = i / 2 ^ 1 % 4 := by
      rw [← Nat.shiftRight_eq_div_pow, ← Nat.shiftRight_eq_div_pow,
        ← (and_mod_two_pow_lit _).2.1, ← (and_mod_two_pow_lit _).2.1]
      exact hc
    norm_num at hr' hc'
    have hji : i = j + 1 ∧ j % 2 = 0 := by omega
    have hparj : j &&& 1 = 0 := by
      rw [Nat.and_one_is_mod]
      exact hji.2
    have hpari : ¬ i &&& 1 = 0 := by
      rw [Nat.and_one_is_mod]
      omega
    rw [pal_read_even _ j hparj, pal_read_even dat j hparj, hr, hc]
    rw [pal_write_odd_0 dat i b hpari, pal_write_odd_1 dat i b hpari]
    congr 1
    rw [shiftLeft5_mod256, shiftLeft5_mod256]
    congr 1
    have hx7 : dat (i >>> 3) ((i >>> 1) &&& 3) 1 % 256 &&& 7 < 8 := by
      rw [(and_mod_two_pow_lit _).2.2.1]
      omega
    rw [or_shl_eq_add 3 _ _ hx7, (and_mod_two_pow_lit _).2.2.1,
      (and_mod_two_pow_lit b).2.1]
    omega
  · exact pal_read_congr _ _ j (fun k => pal_write_other dat i b _ _ k hcell)

/-- Writing a whole stream at indices `≥ i` does not disturb a read at
`j < i`. -/
theorem pal_write_seq_read_lt (stream : List Nat) (j : Nat) :
    ∀ (dat : PalData) (i : Nat), j < i → i + stream.length ≤ 64 →
    pal_read (pal_write_seq dat i stream) j = pal_read dat j := by
  induction stream with
  | nil =>
    intro dat i _ _
    rfl
  | cons b tl ih =>
    intro dat i hij hbound
    have hseq : pal_write_seq dat i (b :: tl) =
        pal_write_seq (pal_write dat i b) (i + 1) tl := rfl
    rw [hseq, ih (pal_write dat i b) (i + 1) (by omega) (by simp at hbound; omega)]
    exact pal_read_write_lt dat i b j hij (by simp at hbound; omega)

/-- Reading back a written stream index by index: even positions return
the byte, odd positions return it without bit 7. -/
theorem mask_odd_map (stream : List Nat) :
    ∀ (dat : PalData) (i : Nat), i + stream.length ≤ 64 → (∀ b ∈ stream, b < 256) →
    (List.range stream.length).map
        (fun j => pal_read (pal_write_seq dat i stream) (i + j)) =
      mask_odd i stream := by
  induction stream with
  | nil =>
    intro dat i _ _
    rfl
  | cons b tl ih =>
    intro dat i hbound hb
    have hlen : (b :: tl).length = tl.length + 1 := rfl
    have hseq : pal_write_seq dat i (b :: tl) =
        pal_write_seq (pal_write dat i b) (i + 1) tl := rfl
    rw [hlen, List.range_succ_eq_map, hseq, List.map_cons, List.map_map]
    have hmo : mask_odd i (b :: tl) = pal_mask_val i b :: mask_odd (i + 1) tl := rfl
    rw [hmo]
    congr 1
    · rw [pal_write_seq_read_lt tl (i + 0) (pal_write dat i b) (i + 1) (by omega)
        (by simp at hbound; omega)]
      have h0 : i + 0 = i := rfl
      rw [h0]
      exact pal_read_write_self dat i b (hb b (List.mem_cons_self b tl))
    · have hfun : ((fun j => pal_read (pal_write_seq (pal_write dat i b) (i + 1) tl)
          (i + j)) ∘ Nat.succ) =
          (fun j => pal_read (pal_write_seq (pal_write dat i b) (i + 1) tl)
            ((i + 1) + j)) := by
        funext j
        show pal_read _ (i + (j + 1)) = pal_read _ ((i + 1) + j)
        congr 1
        omega
      rw [hfun]
      exact ih (pal_write dat i b) (i + 1) (by simp at hbound; omega)
        (fun x hx => hb x (List.mem_cons_of_mem b hx))

theorem option_bind_some {α β : Type} (a : α) (f : α → Option β) :
    (some a).bind f = f a := rfl

theorem option_map_some {α β : Type} (a : α) (f : α → β) :
    (some a).map f = some (f a) := rfl

/-- The `0xFF68` write arm of `Ppu.set_byte` is total. -/
theorem ppu_set68 (p : Ppu) (v : Nat) :
    p.set_byte 0xFF68 v = some (p.write_bgpi v) := rfl

/-- The `0xFF69` write arm of `Ppu.set_byte` is total. -/
theorem ppu_set69 (p : Ppu) (v : Nat) :
    p.set_byte 0xFF69 v = some (p.write_bgp_data v) := rfl

/-- The `0xFF69` read arm of `Ppu.get_byte` is total. -/
theorem ppu_get69 (p : Ppu) :
    p.get_byte 0xFF69 = some (pal_read p.bgp_data p.bgpi.index) := rfl

/-- The write fold of the palette stream never aborts and equals the
pure fold `write69_all`. -/
theorem foldl69_eq (stream : List Nat) : ∀ q : Ppu,
    stream.foldlM (fun r v => r.set_byte 0xFF69 v) q = some (q.write69_all stream) := by
  induction stream with
  | nil =>
    intro q
    rfl
  | cons b tl ih =>
    intro q
    rw [List.foldlM_cons, ppu_set69]
    exact ih (q.write_bgp_data b)

theorem palette_write_stream_eq (p : Ppu) (stream : List Nat) :
    p.palette_write_stream stream =
      some ((p.write_bgpi 0x80).write69_all stream) := by
  unfold Ppu.palette_write_stream
  rw [ppu_set68]
  exact foldl69_eq stream (p.write_bgpi 0x80)

/-- The data after the write fold, given a clean auto-incrementing index
`n` with room for the stream: exactly `pal_write_seq`. -/
theorem write69_all_bgp_data (stream : List Nat) :
    ∀ (q : Ppu) (n : Nat), q.bgpi = { index := n, auto_increment := true } →
    n + stream.length ≤ 64 →
    (q.write69_all stream).bgp_data = pal_write_seq q.bgp_data n stream := by
  induction stream with
  | nil =>
    intro q n _ _
    rfl
  | cons b tl ih =>
    intro q n hq hbound
    show ((q.write_bgp_data b).write69_all tl).bgp_data =
      pal_write_seq (pal_write q.bgp_data n b) (n + 1) tl
    cases tl with
    | nil =>
      show (q.write_bgp_data b).bgp_data = pal_write q.bgp_data n b
      simp [Ppu.write_bgp_data, hq]
    | cons c tl2 =>
      have hq' : (q.write_bgp_data b).bgpi =
          { index := n + 1, auto_increment := true } := by
        simp only [Ppu.write_bgp_data, hq]
        simp
        rw [(and_mod_two_pow_lit _).2.2.2.2.1]
        simp at hbound
        omega
      have hbg : (q.write_bgp_data b).bgp_data = pal_write q.bgp_data n b := by
        simp [Ppu.write_bgp_data, hq]
      rw [ih (q.write_bgp_data b) (n + 1) hq' (by simp at hbound ⊢; omega), hbg]

/-- The read loop visits indices `i, i+1, …` of the same palette data. -/
theorem read_loop_spec : ∀ (n : Nat) (q : Ppu) (i : Nat), i + n ≤ 64 →
    Ppu.palette_read_loop q i n =
      some ((List.range n).map (fun j => pal_read q.bgp_data (i + j))) := by
  intro n
  induction n with
  | zero =>
    intro q i _
    simp [Ppu.palette_read_loop]
  | succ n ih =>
    intro q i h
    show (q.set_byte 0xFF68 i).bind (fun q2 =>
        (q2.get_byte 0xFF69).bind (fun v =>
          (q2.palette_read_loop (i + 1) n).map (fun rest => v :: rest))) = _
    rw [ppu_set68, option_bind_some, ppu_get69, option_bind_some,
      ih (q.write_bgpi i) (i + 1) (by omega), option_map_some]
    have hdat : (q.write_bgpi i).bgp_data = q.bgp_data := rfl
    have hidx : (q.write_bgpi i).bgpi.index = i &&& 63 := rfl
    have hii : i &&& 63 = i := by
      rw [(and_mod_two_pow_lit i).2.2.2.2.1]
      omega
    rw [hdat, hidx, hii]
    rw [List.range_succ_eq_map, List.map_cons, List.map_map]
    congr 1
    congr 1
    have hfun : ((fun j => pal_read q.bgp_data (i + j)) ∘ Nat.succ) =
        (fun j => pal_read q.bgp_data ((i + 1) + j)) := by
      funext j
      show pal_read _ (i + (j + 1)) = pal_read _ ((i + 1) + j)
      congr 1
      omega
    rw [hfun]

/-- C10 (amended): after `0x80 → 0xFF68`, writing any stream of at most
64 bytes to `0xFF69` and reading back at the same sequential indices
returns the stream with bit 7 of every odd-indexed byte cleared — not
the stream itself (that is claim C10's word, refuted by
`c10_counterexample`): the high byte of a 15-bit BGR555 color stores
only 7 bits, so `(value >> 2) & 0x1F` and `(value & 0x03) << 3` drop
bit 7 of odd bytes. -/
theorem c10_amended (p : Ppu) (stream : List Nat) (hlen : stream.length ≤ 64)
    (hb : ∀ b ∈ stream, b < 256) :
    p.palette_roundtrip stream = some (mask_odd 0 stream) := by
  unfold Ppu.palette_roundtrip
  rw [palette_write_stream_eq, option_bind_some]
  rw [read_loop_spec stream.length _ 0 (by omega)]
  have hq : (p.write_bgpi 0x80).bgpi = { index := 0, auto_increment := true } := rfl
  rw [write69_all_bgp_data stream _ 0 hq (by omega)]
  congr 1
  exact mask_odd_map stream (p.write_bgpi 0x80).bgp_data 0 (by omega) hb

/-- Witness for `c10_amended` at a concrete PPU and stream. -/
theorem c10_amended_witness :
    ([0x12, 0x80, 0xFF] : List Nat).length ≤ 64 ∧
    (Ppu.new CartridgeMode.gbc).palette_roundtrip [0x12, 0x80, 0xFF] =
      some (mask_odd 0 [0x12, 0x80, 0xFF]) :=
  ⟨by decide, c10_amended (Ppu.new CartridgeMode.gbc) [0x12, 0x80, 0xFF]
    (by decide) (by decide)⟩

end GameboyR
